import Mathlib

/-! The server side of the RDG tunnel protocol.

A shallow embedding of `protocol/server.go`: the `Server` record, the payload
decoders and response encoders, and the packet loop `Process`.

Modelling conventions.

* A byte is a natural number, a byte slice is a list of them.
* A Go `error` value is represented by its message; `nil` is `none`.
* The code talks to its surroundings (the two transport halves, the three
  verification hooks, the dialer, the forwarder goroutine and `receive`).
  Every such call is recorded, in program order, as an `Event`; what the call
  returns is supplied by the `Env` record, by the hooks stored in the `Server`,
  or by the script of `readMessage` results given to `Process`.
* `log.Printf` calls have no influence on control flow and are left out.
* Declarations of the package that live in other files (`createPacket`,
  `DecodeUTF16`, the numeric constants) are either fields of `Env` /
  `RedirConsts`, or definitions marked as modelled from the specification.
-/

namespace Rdpgw

/-- A Go `error` that is not nil, represented by its message. -/
abbrev GoError := String

/-- A byte slice. -/
abbrev Bytes := List Nat

/-- Handle of an established backend connection (`net.Conn`). -/
abbrev Conn := Nat

/-- The three hook types `VerifyTunnelCreate`, `VerifyTunnelAuthFunc` and
`VerifyServerFunc` share one signature: `func(context.Context, string) (bool, error)`. -/
abbrev VerifyFunc := String → Bool × Option GoError

/-! ## Constants declared outside `server.go` -/

/-- Modelled from the spec: the state constants are declared in another file of the
package; the specification fixes their strict order
`INITIAL < HANDSHAKE < TUNNEL_CREATE < TUNNEL_AUTHORIZE < CHANNEL_CREATE < OPENED < CLOSED`,
and the values used here are the positions in that order. -/
def SERVER_STATE_INITIAL : Int := 0

/-- Modelled from the spec: second state of the order. -/
def SERVER_STATE_HANDSHAKE : Int := 1

/-- Modelled from the spec: third state of the order. -/
def SERVER_STATE_TUNNEL_CREATE : Int := 2

/-- Modelled from the spec: fourth state of the order. -/
def SERVER_STATE_TUNNEL_AUTHORIZE : Int := 3

/-- Modelled from the spec: fifth state of the order. -/
def SERVER_STATE_CHANNEL_CREATE : Int := 4

/-- Modelled from the spec: sixth state of the order. -/
def SERVER_STATE_OPENED : Int := 5

/-- Modelled from the spec: last state of the order. -/
def SERVER_STATE_CLOSED : Int := 6

/-- Modelled from the spec: packet type code of the table of packet type codes
(the constant is declared in another file of the package). -/
def PKT_TYPE_HANDSHAKE_REQUEST : Nat := 0x1

/-- Modelled from the spec: packet type code of the table of packet type codes. -/
def PKT_TYPE_HANDSHAKE_RESPONSE : Nat := 0x2

/-- Modelled from the spec: packet type code of the table of packet type codes. -/
def PKT_TYPE_TUNNEL_CREATE : Nat := 0x3

/-- Modelled from the spec: packet type code of the table of packet type codes. -/
def PKT_TYPE_TUNNEL_RESPONSE : Nat := 0x4

/-- Modelled from the spec: packet type code of the table of packet type codes. -/
def PKT_TYPE_TUNNEL_AUTH : Nat := 0x5

/-- Modelled from the spec: packet type code of the table of packet type codes. -/
def PKT_TYPE_TUNNEL_AUTH_RESPONSE : Nat := 0x6

/-- Modelled from the spec: packet type code of the table of packet type codes. -/
def PKT_TYPE_CHANNEL_CREATE : Nat := 0x7

/-- Modelled from the spec: packet type code of the table of packet type codes. -/
def PKT_TYPE_CHANNEL_RESPONSE : Nat := 0x8

/-- Modelled from the spec: packet type code of the table of packet type codes. -/
def PKT_TYPE_DATA : Nat := 0xA

/-- Modelled from the spec: packet type code of the table of packet type codes. -/
def PKT_TYPE_KEEPALIVE : Nat := 0xB

/-- Modelled from the spec: packet type code of the table of packet type codes. -/
def PKT_TYPE_CLOSE_CHANNEL : Nat := 0x10

/-- Modelled from the spec: `SC = 0x2` of the extended-auth bit field. -/
def HTTP_EXTENDED_AUTH_SC : Nat := 0x2

/-- Modelled from the spec: `PAA = 0x1` of the extended-auth bit field. -/
def HTTP_EXTENDED_AUTH_PAA : Nat := 0x1

/-- Modelled from the spec: the PAA_COOKIE bit (0x1) of `fields_present`. -/
def HTTP_TUNNEL_PACKET_FIELD_PAA_COOKIE : Nat := 0x1

/-- Modelled from the spec: `TUNNEL_ID` (0x1) of the tunnel response fields. -/
def HTTP_TUNNEL_RESPONSE_FIELD_TUNNEL_ID : Nat := 0x1

/-- Modelled from the spec: `CAPS` (0x2) of the tunnel response fields. -/
def HTTP_TUNNEL_RESPONSE_FIELD_CAPS : Nat := 0x2

/-- Modelled from the spec: capability `IDLE_TIMEOUT` (0x1). -/
def HTTP_CAPABILITY_IDLE_TIMEOUT : Nat := 0x1

/-- Modelled from the spec: `REDIR_FLAGS` (0x1) of the tunnel auth response fields. -/
def HTTP_TUNNEL_AUTH_RESPONSE_FIELD_REDIR_FLAGS : Nat := 0x1

/-- Modelled from the spec: `IDLE_TIMEOUT` (0x2) of the tunnel auth response fields. -/
def HTTP_TUNNEL_AUTH_RESPONSE_FIELD_IDLE_TIMEOUT : Nat := 0x2

/-- Modelled from the spec: `CHANNELID` (0x1) of the channel response fields. -/
def HTTP_CHANNEL_RESPONSE_FIELD_CHANNELID : Nat := 0x1

/-- The redirection flag constants `HTTP_TUNNEL_REDIR_*`. They are declared in another
file of the package and the specification gives no complete list of values, so they
are a parameter of `makeRedirectFlags`. -/
structure RedirConsts where
  HTTP_TUNNEL_REDIR_ENABLE_ALL : Int
  HTTP_TUNNEL_REDIR_DISABLE_ALL : Int
  HTTP_TUNNEL_REDIR_DISABLE_DRIVE : Int
  HTTP_TUNNEL_REDIR_DISABLE_PRINTER : Int
  HTTP_TUNNEL_REDIR_DISABLE_PORT : Int
  HTTP_TUNNEL_REDIR_DISABLE_CLIPBOARD : Int
  HTTP_TUNNEL_REDIR_DISABLE_PNP : Int

/-- What `server.go` calls but does not define: `createPacket` and `DecodeUTF16` of the
package, `net.JoinHostPort` and `net.DialTimeout("tcp", host, 15s)` of the standard
library. -/
structure Env where
  createPacket : Nat → Bytes → Bytes
  DecodeUTF16 : Bytes → String × Option GoError
  JoinHostPort : String → String → String
  DialTimeout : String → Except GoError Conn

/-! ## Data model -/

/-- The type `RedirectFlags` of the configuration, with the fields `makeRedirectFlags` reads. -/
structure RedirectFlags where
  DisableAll : Bool
  EnableAll : Bool
  Port : Bool
  Clipboard : Bool
  Drive : Bool
  Pnp : Bool
  Printer : Bool

/-- The struct `Server`. The `Session` pointer only gives access to the two transport
halves, whose use is recorded as events. -/
structure Server where
  VerifyTunnelCreate : Option VerifyFunc
  VerifyTunnelAuthFunc : Option VerifyFunc
  VerifyServerFunc : Option VerifyFunc
  RedirectFlags : Int
  IdleTimeout : Int
  SmartCardAuth : Bool
  TokenAuth : Bool
  ClientName : String
  Remote : Option Conn
  State : Int

/-- The struct `ServerConf`. -/
structure ServerConf where
  VerifyTunnelCreate : Option VerifyFunc
  VerifyTunnelAuthFunc : Option VerifyFunc
  VerifyServerFunc : Option VerifyFunc
  RedirectFlags : RedirectFlags
  IdleTimeout : Int
  SmartCardAuth : Bool
  TokenAuth : Bool
  ReceiveBuf : Int
  SendBuf : Int

/-- Calls of `Process` into its surroundings. -/
inductive Event where
  /-- The call `readMessage(s.Session.TransportIn)`. -/
  | readMessage
  /-- The call `s.Session.TransportOut.WritePacket(msg)`. -/
  | writePacket (msg : Bytes)
  /-- The call `s.VerifyTunnelCreate(ctx, cookie)`. -/
  | verifyTunnelCreate (cookie : String)
  /-- The call `s.VerifyTunnelAuthFunc(ctx, client)`. -/
  | verifyTunnelAuth (client : String)
  /-- The call `s.VerifyServerFunc(ctx, host)`. -/
  | verifyServer (host : String)
  /-- The call `net.DialTimeout("tcp", host, time.Second*15)`. -/
  | dial (host : String)
  /-- The statement `go forward(s.Remote, s.Session.TransportOut)`. -/
  | forward (remote : Option Conn)
  /-- The call `receive(pkt, s.Remote)`. -/
  | receive (pkt : Bytes) (remote : Option Conn)
  /-- The call `s.Session.TransportIn.Close()`. -/
  | closeIn
  /-- The call `s.Session.TransportOut.Close()`. -/
  | closeOut
  deriving DecidableEq, Repr

/-- The four results `pt, sz, pkt, err` of one call of `readMessage`. -/
structure ReadResult where
  pt : Nat
  sz : Nat
  pkt : Bytes
  err : Option GoError

/-- Where control is after a piece of `Process` has run: the server record, the calls
made, and the error of the `return` statement that was executed (`none` when no
`return` was executed and the loop goes on). -/
structure Outcome where
  server : Server
  events : List Event
  ret : Option GoError

/-! ## Reading and writing little-endian fields -/

/-- Value of a little-endian byte sequence. -/
def leValue : Bytes → Nat
  | [] => 0
  | b :: bs => b + 256 * leValue bs

/-- The call `binary.Read(r, binary.LittleEndian, &x)` for an unsigned integer `x` of
`n` bytes that holds zero before the call, on a reader with the bytes `r` left: the
value of `x` afterwards and the bytes left. With fewer than `n` bytes left the call
fails, `x` keeps its value and the reader is drained; the code ignores the error. -/
def readUint (n : Nat) (r : Bytes) : Nat × Bytes :=
  if n ≤ r.length then (leValue (r.take n), r.drop n) else (0, [])

/-- The call `binary.Read(r, binary.LittleEndian, &b)` for a freshly made byte slice `b`
of length `n`: the slice afterwards and the bytes left. With fewer than `n` bytes
left nothing is stored in `b` and the reader is drained. -/
def readSlice (n : Nat) (r : Bytes) : Bytes × Bytes :=
  if n ≤ r.length then (r.take n, r.drop n) else (List.replicate n 0, [])

/-- The call `r.Read(b)` of `bytes.Reader` for a freshly made byte slice `b` of length
`n`: as many bytes as are left are copied, the rest of `b` stays zero. -/
def readInto (n : Nat) (r : Bytes) : Bytes × Bytes :=
  (r.take n ++ List.replicate (n - r.length) 0, r.drop n)

/-- The bytes `binary.Write(buf, binary.LittleEndian, uint16(x))` appends. -/
def putUint16 (x : Nat) : Bytes :=
  [x % 256, x / 256 % 256]

/-- The bytes `binary.Write(buf, binary.LittleEndian, uint32(x))` appends. -/
def putUint32 (x : Nat) : Bytes :=
  [x % 256, x / 256 % 256, x / 65536 % 256, x / 16777216 % 256]

/-- The conversion `uint32(x)` of a Go `int`. -/
def toUint32 (x : Int) : Nat :=
  (x % 4294967296).toNat

/-- The call `strconv.Itoa(int(port))` for a `uint16` port. -/
def Itoa (port : Nat) : String :=
  Nat.repr port

/-! ## The functions of `server.go` -/

/-- The function `makeRedirectFlags`. -/
def makeRedirectFlags (c : RedirConsts) (flags : RedirectFlags) : Int :=
  if flags.DisableAll then c.HTTP_TUNNEL_REDIR_DISABLE_ALL
  else if flags.EnableAll then c.HTTP_TUNNEL_REDIR_ENABLE_ALL
  else
    let redir : Int := 0
    let redir := if !flags.Port then Int.lor redir c.HTTP_TUNNEL_REDIR_DISABLE_PORT else redir
    let redir := if !flags.Clipboard then Int.lor redir c.HTTP_TUNNEL_REDIR_DISABLE_CLIPBOARD else redir
    let redir := if !flags.Drive then Int.lor redir c.HTTP_TUNNEL_REDIR_DISABLE_DRIVE else redir
    let redir := if !flags.Pnp then Int.lor redir c.HTTP_TUNNEL_REDIR_DISABLE_PNP else redir
    let redir := if !flags.Printer then Int.lor redir c.HTTP_TUNNEL_REDIR_DISABLE_PRINTER else redir
    redir

/-- The function `NewServer`. Fields the composite literal does not mention
(`ClientName`, `Remote`) get their zero value. -/
def NewServer (c : RedirConsts) (conf : ServerConf) : Server :=
  { State := SERVER_STATE_INITIAL
    RedirectFlags := makeRedirectFlags c conf.RedirectFlags
    IdleTimeout := conf.IdleTimeout
    SmartCardAuth := conf.SmartCardAuth
    TokenAuth := conf.TokenAuth
    VerifyTunnelCreate := conf.VerifyTunnelCreate
    VerifyServerFunc := conf.VerifyServerFunc
    VerifyTunnelAuthFunc := conf.VerifyTunnelAuthFunc
    ClientName := ""
    Remote := none }

/-- The method `handshakeResponse`. -/
def handshakeResponse (env : Env) (s : Server) (major minor : Nat) : Bytes :=
  let caps : Nat := 0
  let caps := if s.SmartCardAuth then caps ||| HTTP_EXTENDED_AUTH_SC else caps
  let caps := if s.TokenAuth then caps ||| HTTP_EXTENDED_AUTH_PAA else caps
  let buf := putUint32 0 ++ [major, minor] ++ putUint16 0 ++ putUint16 caps
  env.createPacket PKT_TYPE_HANDSHAKE_RESPONSE buf

/-- The method `handshakeRequest`: `(major, minor, version, extAuth)`. -/
def handshakeRequest (data : Bytes) : Nat × Nat × Nat × Nat :=
  let (major, r) := readUint 1 data
  let (minor, r) := readUint 1 r
  let (version, r) := readUint 2 r
  let (extAuth, _) := readUint 2 r
  (major, minor, version, extAuth)

/-- The method `tunnelRequest`: `(caps, cookie)`. -/
def tunnelRequest (env : Env) (data : Bytes) : Nat × String :=
  let (caps, r) := readUint 4 data
  let (fields, r) := readUint 2 r
  let r := r.drop 2
  if fields = HTTP_TUNNEL_PACKET_FIELD_PAA_COOKIE then
    let (size, r) := readUint 2 r
    let (cookieB, _) := readInto size r
    (caps, (env.DecodeUTF16 cookieB).1)
  else
    (caps, "")

/-- The method `tunnelResponse`. -/
def tunnelResponse (env : Env) : Bytes :=
  let buf := putUint16 0 ++ putUint32 0
    ++ putUint16 (HTTP_TUNNEL_RESPONSE_FIELD_TUNNEL_ID ||| HTTP_TUNNEL_RESPONSE_FIELD_CAPS)
    ++ putUint16 0 ++ putUint32 10 ++ putUint32 HTTP_CAPABILITY_IDLE_TIMEOUT
  env.createPacket PKT_TYPE_TUNNEL_RESPONSE buf

/-- The method `tunnelAuthRequest`. -/
def tunnelAuthRequest (env : Env) (data : Bytes) : String :=
  let (size, r) := readUint 2 data
  let (clData, _) := readSlice size r
  (env.DecodeUTF16 clData).1

/-- The method `tunnelAuthResponse`: the frame, and the server record after the
assignment `s.IdleTimeout = 0` the method makes when the timeout is negative. -/
def tunnelAuthResponse (env : Env) (s : Server) : Bytes × Server :=
  let s := if s.IdleTimeout < 0 then { s with IdleTimeout := 0 } else s
  let buf := putUint32 0
    ++ putUint16 (HTTP_TUNNEL_AUTH_RESPONSE_FIELD_REDIR_FLAGS
        ||| HTTP_TUNNEL_AUTH_RESPONSE_FIELD_IDLE_TIMEOUT)
    ++ putUint16 0 ++ putUint32 (toUint32 s.RedirectFlags) ++ putUint32 (toUint32 s.IdleTimeout)
  (env.createPacket PKT_TYPE_TUNNEL_AUTH_RESPONSE buf, s)

/-- The method `channelRequest`: `(server, port)`. -/
def channelRequest (env : Env) (data : Bytes) : String × Nat :=
  let (_resourcesSize, r) := readUint 1 data
  let (_alternative, r) := readUint 1 r
  let (port, r) := readUint 2 r
  let (_protocol, r) := readUint 2 r
  let (nameSize, r) := readUint 2 r
  let (nameData, _) := readSlice nameSize r
  ((env.DecodeUTF16 nameData).1, port)

/-- The method `channelResponse`. -/
def channelResponse (env : Env) : Bytes :=
  let buf := putUint32 0 ++ putUint16 HTTP_CHANNEL_RESPONSE_FIELD_CHANNELID
    ++ putUint16 0 ++ putUint32 1
  env.createPacket PKT_TYPE_CHANNEL_RESPONSE buf

/-- One pass through the body of the `for` loop of `Process`: the call of `readMessage`,
whose results are `m`, and the `switch` on the packet type. -/
def iteration (env : Env) (s : Server) (m : ReadResult) : Outcome :=
  match m.err with
  | some err => ⟨s, [Event.readMessage], some err⟩
  | none =>
    if m.pt = PKT_TYPE_HANDSHAKE_REQUEST then
      if s.State ≠ SERVER_STATE_INITIAL then
        ⟨s, [Event.readMessage], some "wrong state"⟩
      else
        let (major, minor, _, _) := handshakeRequest m.pkt
        let msg := handshakeResponse env s major minor
        ⟨{ s with State := SERVER_STATE_HANDSHAKE },
          [Event.readMessage, Event.writePacket msg], none⟩
    else if m.pt = PKT_TYPE_TUNNEL_CREATE then
      if s.State ≠ SERVER_STATE_HANDSHAKE then
        ⟨s, [Event.readMessage], some "wrong state"⟩
      else
        let (_, cookie) := tunnelRequest env m.pkt
        let calls :=
          match s.VerifyTunnelCreate with
          | some _ => [Event.verifyTunnelCreate cookie]
          | none => []
        let msg := tunnelResponse env
        ⟨{ s with State := SERVER_STATE_TUNNEL_CREATE },
          [Event.readMessage] ++ calls ++ [Event.writePacket msg], none⟩
    else if m.pt = PKT_TYPE_TUNNEL_AUTH then
      if s.State ≠ SERVER_STATE_TUNNEL_CREATE then
        ⟨s, [Event.readMessage], some "wrong state"⟩
      else
        let client := tunnelAuthRequest env m.pkt
        let (calls, denied) :=
          match s.VerifyTunnelAuthFunc with
          | some f => ([Event.verifyTunnelAuth client], !(f client).1)
          | none => ([], false)
        if denied then
          ⟨s, [Event.readMessage] ++ calls, some "invalid client name"⟩
        else
          let (msg, s) := tunnelAuthResponse env s
          ⟨{ s with State := SERVER_STATE_TUNNEL_AUTHORIZE },
            [Event.readMessage] ++ calls ++ [Event.writePacket msg], none⟩
    else if m.pt = PKT_TYPE_CHANNEL_CREATE then
      if s.State ≠ SERVER_STATE_TUNNEL_AUTHORIZE then
        ⟨s, [Event.readMessage], some "wrong state"⟩
      else
        let (server, port) := channelRequest env m.pkt
        let host := env.JoinHostPort server (Itoa port)
        let (calls, denied) :=
          match s.VerifyServerFunc with
          | some f => ([Event.verifyServer host], !(f host).1)
          | none => ([], false)
        if denied then
          ⟨s, [Event.readMessage] ++ calls, some "denied by security policy"⟩
        else
          match env.DialTimeout host with
          | Except.error err =>
            ⟨{ s with Remote := none },
              [Event.readMessage] ++ calls ++ [Event.dial host], some err⟩
          | Except.ok conn =>
            let s := { s with Remote := some conn }
            let msg := channelResponse env
            ⟨{ s with State := SERVER_STATE_CHANNEL_CREATE },
              [Event.readMessage] ++ calls
                ++ [Event.dial host, Event.writePacket msg, Event.forward s.Remote], none⟩
    else if m.pt = PKT_TYPE_DATA then
      if s.State < SERVER_STATE_CHANNEL_CREATE then
        ⟨s, [Event.readMessage], some "wrong state"⟩
      else
        let s := { s with State := SERVER_STATE_OPENED }
        ⟨s, [Event.readMessage, Event.receive m.pkt s.Remote], none⟩
    else if m.pt = PKT_TYPE_KEEPALIVE then
      if s.State < SERVER_STATE_CHANNEL_CREATE then
        ⟨s, [Event.readMessage], some "wrong state"⟩
      else
        ⟨s, [Event.readMessage], none⟩
    else if m.pt = PKT_TYPE_CLOSE_CHANNEL then
      if s.State ≠ SERVER_STATE_OPENED then
        ⟨s, [Event.readMessage], some "wrong state"⟩
      else
        ⟨{ s with State := SERVER_STATE_CLOSED },
          [Event.readMessage, Event.closeIn, Event.closeOut], none⟩
    else
      ⟨s, [Event.readMessage], none⟩

/-- The method `Process`, run against a script of `readMessage` results, one per
call. The loop has no exit but its `return` statements: `ret` is the error `Process`
returned, and `none` says that `Process` has not returned when the script is used up
(it is then inside the next call of `readMessage`). -/
def Process (env : Env) : Server → List ReadResult → Outcome
  | s, [] => ⟨s, [], none⟩
  | s, m :: ms =>
    let o := iteration env s m
    match o.ret with
    | some err => ⟨o.server, o.events, some err⟩
    | none =>
      let r := Process env o.server ms
      ⟨r.server, o.events ++ r.events, r.ret⟩

/-! ## Projections of a trace -/

/-- The frames written to the outbound transport, in order. -/
def frames : List Event → List Bytes
  | [] => []
  | Event.writePacket msg :: es => msg :: frames es
  | _ :: es => frames es

/-- The addresses the backend was dialed at, in order. -/
def dials : List Event → List String
  | [] => []
  | Event.dial host :: es => host :: dials es
  | _ :: es => dials es

/-- The verification hook calls, in order. -/
def hookCalls : List Event → List Event
  | [] => []
  | Event.verifyTunnelCreate a :: es => Event.verifyTunnelCreate a :: hookCalls es
  | Event.verifyTunnelAuth a :: es => Event.verifyTunnelAuth a :: hookCalls es
  | Event.verifyServer a :: es => Event.verifyServer a :: hookCalls es
  | _ :: es => hookCalls es

/-- The backend connections a forwarder was started on, in order. -/
def forwards : List Event → List (Option Conn)
  | [] => []
  | Event.forward c :: es => c :: forwards es
  | _ :: es => forwards es

/-- The payloads handed to `receive`, with the connection passed along, in order. -/
def receives : List Event → List (Bytes × Option Conn)
  | [] => []
  | Event.receive p c :: es => (p, c) :: receives es
  | _ :: es => receives es

/-- The number of `readMessage` calls. -/
def reads : List Event → Nat
  | [] => 0
  | Event.readMessage :: es => reads es + 1
  | _ :: es => reads es

/-! ## Sample surroundings for evaluating the model -/

/-- A sample environment: `createPacket` lays a frame out as type (u16), total size
(u16), four zero bytes, payload; `DecodeUTF16` keeps the low byte of every code unit
and strips a final NUL;
`JoinHostPort` joins with a colon; every dial succeeds with connection 1. -/
def sampleEnv : Env :=
  { createPacket := fun t p => putUint16 t ++ putUint16 (p.length + 8) ++ putUint32 0 ++ p
    DecodeUTF16 := fun b =>
      let cs := (List.range (b.length / 2)).map fun i => Char.ofNat (b.getD (2 * i) 0)
      (String.mk (if cs.getLast? = some (Char.ofNat 0) then cs.dropLast else cs), none)
    JoinHostPort := fun host port => host ++ ":" ++ port
    DialTimeout := fun _ => Except.ok 1 }

/-- The sample environment with a backend that cannot be reached. -/
def unreachableEnv : Env :=
  { sampleEnv with DialTimeout := fun _ => Except.error "i/o timeout" }

/-- A sample redirection policy. -/
def sampleRedirectFlags : RedirectFlags :=
  { DisableAll := false, EnableAll := false, Port := false, Clipboard := true,
    Drive := true, Pnp := true, Printer := false }

/-- Sample values of the redirection constants. -/
def sampleRedirConsts : RedirConsts :=
  { HTTP_TUNNEL_REDIR_ENABLE_ALL := 0x80000000
    HTTP_TUNNEL_REDIR_DISABLE_ALL := 0x40000000
    HTTP_TUNNEL_REDIR_DISABLE_DRIVE := 0x1
    HTTP_TUNNEL_REDIR_DISABLE_PRINTER := 0x2
    HTTP_TUNNEL_REDIR_DISABLE_PORT := 0x4
    HTTP_TUNNEL_REDIR_DISABLE_CLIPBOARD := 0x8
    HTTP_TUNNEL_REDIR_DISABLE_PNP := 0x10 }

/-- A sample configuration without verification hooks. -/
def sampleConf : ServerConf :=
  { VerifyTunnelCreate := none
    VerifyTunnelAuthFunc := none
    VerifyServerFunc := none
    RedirectFlags := sampleRedirectFlags
    IdleTimeout := 10
    SmartCardAuth := false
    TokenAuth := false
    ReceiveBuf := 0
    SendBuf := 0 }

/-- A sample server in a given state, without hooks and without backend connection. -/
def serverIn (state : Int) : Server :=
  { NewServer sampleRedirConsts sampleConf with State := state }

/-- A hook that denies every argument. -/
def denyAll : VerifyFunc :=
  fun _ => (false, none)

/-- A hook that allows every argument: it always returns `(true, nil)`. -/
def allowAll : VerifyFunc :=
  fun _ => (true, none)

/-- The condition "the hook is absent or returns allowed=true" on the argument the hook
is called with. -/
def hookAllows (hook : Option VerifyFunc) (arg : String) : Bool :=
  match hook with
  | none => true
  | some f => (f arg).1

/-- The call of a hook that is configured; a hook that is nil is not called. -/
def hookCall (hook : Option VerifyFunc) (call : Event) : List Event :=
  match hook with
  | some _ => [call]
  | none => []

/-- The address `Process` computes from a CHANNEL_CREATE payload:
`net.JoinHostPort(server, strconv.Itoa(int(port)))`. -/
def targetHost (env : Env) (pkt : Bytes) : String :=
  env.JoinHostPort (channelRequest env pkt).1 (Itoa (channelRequest env pkt).2)

/-- What the claims compare of an iteration: the error returned, the frames written, the
addresses dialed, and the fields `State`, `Remote` and `IdleTimeout` of the server. -/
def observable (o : Outcome) :
    Option GoError × List Bytes × List String × Int × Option Conn × Int :=
  (o.ret, frames o.events, dials o.events, o.server.State, o.server.Remote,
    o.server.IdleTimeout)

/-- A TUNNEL_AUTH payload: the client name "blocked" with its final NUL, 16 bytes. -/
def blockedTunnelAuth : Bytes :=
  [16, 0, 98, 0, 108, 0, 111, 0, 99, 0, 107, 0, 101, 0, 100, 0, 0, 0]

/-- A HANDSHAKE_REQUEST payload: major 1, minor 0, client version 0, extended auth 3. -/
def sampleHandshakeRequest : Bytes :=
  [1, 0, 0, 0, 3, 0]

/-- A TUNNEL_CREATE payload: caps 0, no field present, two reserved bytes. -/
def sampleTunnelCreate : Bytes :=
  [0, 0, 0, 0, 0, 0, 0, 0]

/-- A TUNNEL_AUTH payload: the client name "client-1" with its final NUL, 18 bytes. -/
def sampleTunnelAuth : Bytes :=
  [18, 0, 99, 0, 108, 0, 105, 0, 101, 0, 110, 0, 116, 0, 45, 0, 49, 0, 0, 0]

/-- A CHANNEL_CREATE payload: one resource, no alternative, port 3389, protocol 3, the
name "127.0.0.1" with its final NUL, 20 bytes. -/
def sampleChannelCreate : Bytes :=
  [1, 0, 61, 13, 3, 0, 20, 0, 49, 0, 50, 0, 55, 0, 46, 0, 48, 0, 46, 0, 48, 0, 46, 0,
   49, 0, 0, 0]

/-! ## Predicates on traces -/

/-- The connection `r` is set, and the trace `tr` holds a dial that returned it and the
start of the forwarder on it. -/
def dialedAndForwarded (env : Env) (tr : List Event) (r : Option Conn) : Prop :=
  ∃ conn host, r = some conn ∧ Event.forward (some conn) ∈ tr ∧ Event.dial host ∈ tr
    ∧ env.DialTimeout host = Except.ok conn

/-- Every call of `receive` in the trace gets a connection that was dialed and on which
the forwarder was started earlier in the trace. -/
def receivesOrdered (env : Env) (tr : List Event) : Prop :=
  ∀ q p r post, tr = q ++ Event.receive p r :: post → dialedAndForwarded env q r

/-- The happy path of a session: the four handshake packets, the DATA payload "hello",
CLOSE_CHANNEL, and the failing read that follows. -/
def sampleSession : List ReadResult :=
  [⟨PKT_TYPE_HANDSHAKE_REQUEST, 14, sampleHandshakeRequest, none⟩,
   ⟨PKT_TYPE_TUNNEL_CREATE, 16, sampleTunnelCreate, none⟩,
   ⟨PKT_TYPE_TUNNEL_AUTH, 28, sampleTunnelAuth, none⟩,
   ⟨PKT_TYPE_CHANNEL_CREATE, 36, sampleChannelCreate, none⟩,
   ⟨PKT_TYPE_DATA, 13, [104, 101, 108, 108, 111], none⟩,
   ⟨PKT_TYPE_CLOSE_CHANNEL, 8, [], none⟩,
   ⟨0, 0, [], some "use of closed network connection"⟩]

/-! ## The redirect flags as the specification words them -/

/-- The disable flags of exactly the features whose field of the policy is false, in the
order port, clipboard, drive, pnp, printer. -/
def disabledFeatures (c : RedirConsts) (flags : RedirectFlags) : List Int :=
  (if flags.Port then [] else [c.HTTP_TUNNEL_REDIR_DISABLE_PORT])
    ++ (if flags.Clipboard then [] else [c.HTTP_TUNNEL_REDIR_DISABLE_CLIPBOARD])
    ++ (if flags.Drive then [] else [c.HTTP_TUNNEL_REDIR_DISABLE_DRIVE])
    ++ (if flags.Pnp then [] else [c.HTTP_TUNNEL_REDIR_DISABLE_PNP])
    ++ (if flags.Printer then [] else [c.HTTP_TUNNEL_REDIR_DISABLE_PRINTER])

/-- The bitwise OR of the disable flags of the features whose field is false; 0 when
there is none. -/
def orOfDisabled (c : RedirConsts) (flags : RedirectFlags) : Int :=
  (disabledFeatures c flags).foldl Int.lor 0

/-- A TUNNEL_CREATE payload whose `fields_present` is 3: the PAA_COOKIE bit and one
other bit; caps 0, two reserved bytes, size 2, the cookie "A". -/
def otherBitsTunnelCreate : Bytes :=
  [0, 0, 0, 0, 3, 0, 0, 0, 2, 0, 65, 0]

/-- The four responses of the handshake, in the order of the protocol; `p1` and `p3` are
the payloads of the HANDSHAKE_RESPONSE and of the TUNNEL_AUTH_RESPONSE. -/
def handshakeFrames (env : Env) (p1 p3 : Bytes) : List Bytes :=
  [env.createPacket PKT_TYPE_HANDSHAKE_RESPONSE p1, tunnelResponse env,
   env.createPacket PKT_TYPE_TUNNEL_AUTH_RESPONSE p3, channelResponse env]

/-- How far a session has come: before state CHANNEL_CREATE the state counts the
responses written so far and nothing was dialed or forwarded; from CHANNEL_CREATE on all
four responses are written and there was one dial and one start of the forwarder. -/
def sessionInv (env : Env) (s : Server) (tr : List Event) : Prop :=
  ∃ (k : Nat) (p1 p3 : Bytes), frames tr = (handshakeFrames env p1 p3).take k
    ∧ ((k < 4 ∧ s.State = (k : Int) ∧ dials tr = [] ∧ forwards tr = [])
      ∨ (k = 4 ∧ SERVER_STATE_CHANNEL_CREATE ≤ s.State ∧ (dials tr).length = 1
          ∧ (forwards tr).length = 1))

/-- The frames of the trace are a prefix of the four responses, and there is at most one
dial and at most one start of the forwarder. -/
def sessionOk (env : Env) (tr : List Event) : Prop :=
  (∃ p1 p3, frames tr <+: handshakeFrames env p1 p3)
    ∧ (dials tr).length ≤ 1 ∧ (forwards tr).length ≤ 1

/-! ## What each branch of the switch does -/

/-- HANDSHAKE_REQUEST in state INITIAL. -/
theorem iteration_handshakeRequest (env : Env) (s : Server) (sz : Nat) (pkt : Bytes)
    (h : s.State = SERVER_STATE_INITIAL) :
    iteration env s ⟨PKT_TYPE_HANDSHAKE_REQUEST, sz, pkt, none⟩
      = ⟨{ s with State := SERVER_STATE_HANDSHAKE },
          [Event.readMessage, Event.writePacket
            (handshakeResponse env s (handshakeRequest pkt).1 (handshakeRequest pkt).2.1)],
          none⟩ := by
  simp [iteration, h]

/-- TUNNEL_CREATE in state HANDSHAKE. -/
theorem iteration_tunnelCreate (env : Env) (s : Server) (sz : Nat) (pkt : Bytes)
    (h : s.State = SERVER_STATE_HANDSHAKE) :
    iteration env s ⟨PKT_TYPE_TUNNEL_CREATE, sz, pkt, none⟩
      = ⟨{ s with State := SERVER_STATE_TUNNEL_CREATE },
          [Event.readMessage]
            ++ hookCall s.VerifyTunnelCreate (Event.verifyTunnelCreate (tunnelRequest env pkt).2)
            ++ [Event.writePacket (tunnelResponse env)],
          none⟩ := by
  cases hf : s.VerifyTunnelCreate <;>
  simp [iteration, h, hf, hookCall, PKT_TYPE_TUNNEL_CREATE, PKT_TYPE_HANDSHAKE_REQUEST]

/-- TUNNEL_AUTH in state TUNNEL_CREATE. -/
theorem iteration_tunnelAuth (env : Env) (s : Server) (sz : Nat) (pkt : Bytes)
    (h : s.State = SERVER_STATE_TUNNEL_CREATE) :
    iteration env s ⟨PKT_TYPE_TUNNEL_AUTH, sz, pkt, none⟩
      = if hookAllows s.VerifyTunnelAuthFunc (tunnelAuthRequest env pkt) = true then
          ⟨{ (tunnelAuthResponse env s).2 with State := SERVER_STATE_TUNNEL_AUTHORIZE },
            [Event.readMessage]
              ++ hookCall s.VerifyTunnelAuthFunc
                  (Event.verifyTunnelAuth (tunnelAuthRequest env pkt))
              ++ [Event.writePacket (tunnelAuthResponse env s).1], none⟩
        else
          ⟨s, [Event.readMessage, Event.verifyTunnelAuth (tunnelAuthRequest env pkt)],
            some "invalid client name"⟩ := by
  cases hf : s.VerifyTunnelAuthFunc with
  | none =>
    simp [iteration, h, hf, hookAllows, hookCall, PKT_TYPE_TUNNEL_AUTH, PKT_TYPE_TUNNEL_CREATE,
      PKT_TYPE_HANDSHAKE_REQUEST]
  | some f =>
    by_cases hd : (f (tunnelAuthRequest env pkt)).1 = true <;>
    simp [iteration, h, hf, hd, hookAllows, hookCall, PKT_TYPE_TUNNEL_AUTH,
      PKT_TYPE_TUNNEL_CREATE, PKT_TYPE_HANDSHAKE_REQUEST]

/-- CHANNEL_CREATE in state TUNNEL_AUTHORIZE. -/
theorem iteration_channelCreate (env : Env) (s : Server) (sz : Nat) (pkt : Bytes)
    (h : s.State = SERVER_STATE_TUNNEL_AUTHORIZE) :
    iteration env s ⟨PKT_TYPE_CHANNEL_CREATE, sz, pkt, none⟩
      = if hookAllows s.VerifyServerFunc (targetHost env pkt) = true then
          match env.DialTimeout (targetHost env pkt) with
          | Except.error err =>
            ⟨{ s with Remote := none },
              [Event.readMessage]
                ++ hookCall s.VerifyServerFunc (Event.verifyServer (targetHost env pkt))
                ++ [Event.dial (targetHost env pkt)], some err⟩
          | Except.ok conn =>
            ⟨{ s with Remote := some conn, State := SERVER_STATE_CHANNEL_CREATE },
              [Event.readMessage]
                ++ hookCall s.VerifyServerFunc (Event.verifyServer (targetHost env pkt))
                ++ [Event.dial (targetHost env pkt), Event.writePacket (channelResponse env),
                    Event.forward (some conn)], none⟩
        else
          ⟨s, [Event.readMessage, Event.verifyServer (targetHost env pkt)],
            some "denied by security policy"⟩ := by
  cases hf : s.VerifyServerFunc with
  | none =>
    cases hd : env.DialTimeout (targetHost env pkt) <;>
    simp [iteration, h, hf, hookAllows, hookCall, PKT_TYPE_CHANNEL_CREATE, PKT_TYPE_TUNNEL_AUTH,
      PKT_TYPE_TUNNEL_CREATE, PKT_TYPE_HANDSHAKE_REQUEST] <;>
    simp [targetHost] at hd <;> simp [hd, targetHost]
  | some f =>
    by_cases ha : (f (targetHost env pkt)).1 = true
    · cases hd : env.DialTimeout (targetHost env pkt) <;>
      simp [iteration, h, hf, ha, hookAllows, hookCall, PKT_TYPE_CHANNEL_CREATE,
        PKT_TYPE_TUNNEL_AUTH, PKT_TYPE_TUNNEL_CREATE, PKT_TYPE_HANDSHAKE_REQUEST] <;>
      simp [targetHost] at hd ha <;> simp [hd, ha, targetHost]
    · simp [iteration, h, hf, ha, hookAllows, hookCall, PKT_TYPE_CHANNEL_CREATE,
        PKT_TYPE_TUNNEL_AUTH, PKT_TYPE_TUNNEL_CREATE, PKT_TYPE_HANDSHAKE_REQUEST]
      simp [targetHost] at ha
      simp [ha, targetHost]

/-- DATA in a state at or after CHANNEL_CREATE. -/
theorem iteration_data (env : Env) (s : Server) (sz : Nat) (pkt : Bytes)
    (h : SERVER_STATE_CHANNEL_CREATE ≤ s.State) :
    iteration env s ⟨PKT_TYPE_DATA, sz, pkt, none⟩
      = ⟨{ s with State := SERVER_STATE_OPENED },
          [Event.readMessage, Event.receive pkt s.Remote], none⟩ := by
  have h2 : ¬ s.State < SERVER_STATE_CHANNEL_CREATE := not_lt.mpr h
  simp [iteration, h2, PKT_TYPE_DATA, PKT_TYPE_CHANNEL_CREATE, PKT_TYPE_TUNNEL_AUTH,
    PKT_TYPE_TUNNEL_CREATE, PKT_TYPE_HANDSHAKE_REQUEST]

/-- KEEPALIVE in a state at or after CHANNEL_CREATE. -/
theorem iteration_keepalive (env : Env) (s : Server) (sz : Nat) (pkt : Bytes)
    (h : SERVER_STATE_CHANNEL_CREATE ≤ s.State) :
    iteration env s ⟨PKT_TYPE_KEEPALIVE, sz, pkt, none⟩ = ⟨s, [Event.readMessage], none⟩ := by
  have h2 : ¬ s.State < SERVER_STATE_CHANNEL_CREATE := not_lt.mpr h
  simp [iteration, h2, PKT_TYPE_KEEPALIVE, PKT_TYPE_DATA, PKT_TYPE_CHANNEL_CREATE,
    PKT_TYPE_TUNNEL_AUTH, PKT_TYPE_TUNNEL_CREATE, PKT_TYPE_HANDSHAKE_REQUEST]

/-- CLOSE_CHANNEL in state OPENED. -/
theorem iteration_closeChannel (env : Env) (s : Server) (sz : Nat) (pkt : Bytes)
    (h : s.State = SERVER_STATE_OPENED) :
    iteration env s ⟨PKT_TYPE_CLOSE_CHANNEL, sz, pkt, none⟩
      = ⟨{ s with State := SERVER_STATE_CLOSED },
          [Event.readMessage, Event.closeIn, Event.closeOut], none⟩ := by
  simp [iteration, h, PKT_TYPE_CLOSE_CHANNEL, PKT_TYPE_KEEPALIVE, PKT_TYPE_DATA,
    PKT_TYPE_CHANNEL_CREATE, PKT_TYPE_TUNNEL_AUTH, PKT_TYPE_TUNNEL_CREATE,
    PKT_TYPE_HANDSHAKE_REQUEST]

/-- A packet type that no case of the switch names. -/
theorem iteration_unknown (env : Env) (s : Server) (pt sz : Nat) (pkt : Bytes)
    (h1 : pt ≠ PKT_TYPE_HANDSHAKE_REQUEST) (h2 : pt ≠ PKT_TYPE_TUNNEL_CREATE)
    (h3 : pt ≠ PKT_TYPE_TUNNEL_AUTH) (h4 : pt ≠ PKT_TYPE_CHANNEL_CREATE)
    (h5 : pt ≠ PKT_TYPE_DATA) (h6 : pt ≠ PKT_TYPE_KEEPALIVE)
    (h7 : pt ≠ PKT_TYPE_CLOSE_CHANNEL) :
    iteration env s ⟨pt, sz, pkt, none⟩ = ⟨s, [Event.readMessage], none⟩ := by
  simp [iteration, h1, h2, h3, h4, h5, h6, h7]

/-- A state mismatch on a handled packet type. -/
theorem iteration_mismatch (env : Env) (s : Server) (pt sz : Nat) (pkt : Bytes)
    (h : (pt = PKT_TYPE_HANDSHAKE_REQUEST ∧ s.State ≠ SERVER_STATE_INITIAL)
      ∨ (pt = PKT_TYPE_TUNNEL_CREATE ∧ s.State ≠ SERVER_STATE_HANDSHAKE)
      ∨ (pt = PKT_TYPE_TUNNEL_AUTH ∧ s.State ≠ SERVER_STATE_TUNNEL_CREATE)
      ∨ (pt = PKT_TYPE_CHANNEL_CREATE ∧ s.State ≠ SERVER_STATE_TUNNEL_AUTHORIZE)
      ∨ (pt = PKT_TYPE_DATA ∧ s.State < SERVER_STATE_CHANNEL_CREATE)
      ∨ (pt = PKT_TYPE_KEEPALIVE ∧ s.State < SERVER_STATE_CHANNEL_CREATE)
      ∨ (pt = PKT_TYPE_CLOSE_CHANNEL ∧ s.State ≠ SERVER_STATE_OPENED)) :
    iteration env s ⟨pt, sz, pkt, none⟩ = ⟨s, [Event.readMessage], some "wrong state"⟩ := by
  rcases h with h | h | h | h | h | h | h <;> obtain ⟨hp, hs⟩ := h <;> subst hp <;>
    simp [iteration, hs, PKT_TYPE_HANDSHAKE_REQUEST, PKT_TYPE_TUNNEL_CREATE,
      PKT_TYPE_TUNNEL_AUTH, PKT_TYPE_CHANNEL_CREATE, PKT_TYPE_DATA, PKT_TYPE_KEEPALIVE,
      PKT_TYPE_CLOSE_CHANNEL]

/-- A failed `readMessage`. -/
theorem iteration_readError (env : Env) (s : Server) (pt sz : Nat) (pkt : Bytes)
    (err : GoError) :
    iteration env s ⟨pt, sz, pkt, some err⟩ = ⟨s, [Event.readMessage], some err⟩ := by
  simp [iteration]

/-- The state after an iteration: unchanged, or one of the six transitions. -/
theorem iteration_state_cases (env : Env) (s : Server) (pt sz : Nat) (pkt : Bytes) :
    (iteration env s ⟨pt, sz, pkt, none⟩).server.State = s.State
      ∨ (s.State = SERVER_STATE_INITIAL
        ∧ (iteration env s ⟨pt, sz, pkt, none⟩).server.State = SERVER_STATE_HANDSHAKE)
      ∨ (s.State = SERVER_STATE_HANDSHAKE
        ∧ (iteration env s ⟨pt, sz, pkt, none⟩).server.State = SERVER_STATE_TUNNEL_CREATE)
      ∨ (s.State = SERVER_STATE_TUNNEL_CREATE
        ∧ (iteration env s ⟨pt, sz, pkt, none⟩).server.State = SERVER_STATE_TUNNEL_AUTHORIZE)
      ∨ (s.State = SERVER_STATE_TUNNEL_AUTHORIZE
        ∧ (iteration env s ⟨pt, sz, pkt, none⟩).server.State = SERVER_STATE_CHANNEL_CREATE)
      ∨ (pt = PKT_TYPE_DATA ∧ SERVER_STATE_CHANNEL_CREATE ≤ s.State
        ∧ (iteration env s ⟨pt, sz, pkt, none⟩).server.State = SERVER_STATE_OPENED)
      ∨ (s.State = SERVER_STATE_OPENED
        ∧ (iteration env s ⟨pt, sz, pkt, none⟩).server.State = SERVER_STATE_CLOSED) := by
  by_cases h1 : pt = PKT_TYPE_HANDSHAKE_REQUEST
  · subst h1
    by_cases hs : s.State = SERVER_STATE_INITIAL
    · rw [iteration_handshakeRequest env s sz pkt hs]; exact Or.inr (Or.inl ⟨hs, rfl⟩)
    · rw [iteration_mismatch env s _ sz pkt (Or.inl ⟨rfl, hs⟩)]; exact Or.inl rfl
  by_cases h2 : pt = PKT_TYPE_TUNNEL_CREATE
  · subst h2
    by_cases hs : s.State = SERVER_STATE_HANDSHAKE
    · rw [iteration_tunnelCreate env s sz pkt hs]; exact Or.inr (Or.inr (Or.inl ⟨hs, rfl⟩))
    · rw [iteration_mismatch env s _ sz pkt (Or.inr (Or.inl ⟨rfl, hs⟩))]; exact Or.inl rfl
  by_cases h3 : pt = PKT_TYPE_TUNNEL_AUTH
  · subst h3
    by_cases hs : s.State = SERVER_STATE_TUNNEL_CREATE
    · rw [iteration_tunnelAuth env s sz pkt hs]
      split
      · exact Or.inr (Or.inr (Or.inr (Or.inl ⟨hs, rfl⟩)))
      · exact Or.inl rfl
    · rw [iteration_mismatch env s _ sz pkt (Or.inr (Or.inr (Or.inl ⟨rfl, hs⟩)))]
      exact Or.inl rfl
  by_cases h4 : pt = PKT_TYPE_CHANNEL_CREATE
  · subst h4
    by_cases hs : s.State = SERVER_STATE_TUNNEL_AUTHORIZE
    · rw [iteration_channelCreate env s sz pkt hs]
      split
      · split
        · exact Or.inl rfl
        · exact Or.inr (Or.inr (Or.inr (Or.inr (Or.inl ⟨hs, rfl⟩))))
      · exact Or.inl rfl
    · rw [iteration_mismatch env s _ sz pkt (Or.inr (Or.inr (Or.inr (Or.inl ⟨rfl, hs⟩))))]
      exact Or.inl rfl
  by_cases h5 : pt = PKT_TYPE_DATA
  · subst h5
    by_cases hs : s.State < SERVER_STATE_CHANNEL_CREATE
    · rw [iteration_mismatch env s _ sz pkt
        (Or.inr (Or.inr (Or.inr (Or.inr (Or.inl ⟨rfl, hs⟩)))))]
      exact Or.inl rfl
    · rw [iteration_data env s sz pkt (not_lt.mp hs)]
      exact Or.inr (Or.inr (Or.inr (Or.inr (Or.inr (Or.inl ⟨rfl, not_lt.mp hs, rfl⟩)))))
  by_cases h6 : pt = PKT_TYPE_KEEPALIVE
  · subst h6
    by_cases hs : s.State < SERVER_STATE_CHANNEL_CREATE
    · rw [iteration_mismatch env s _ sz pkt
        (Or.inr (Or.inr (Or.inr (Or.inr (Or.inr (Or.inl ⟨rfl, hs⟩))))))]
      exact Or.inl rfl
    · rw [iteration_keepalive env s sz pkt (not_lt.mp hs)]; exact Or.inl rfl
  by_cases h7 : pt = PKT_TYPE_CLOSE_CHANNEL
  · subst h7
    by_cases hs : s.State = SERVER_STATE_OPENED
    · rw [iteration_closeChannel env s sz pkt hs]
      exact Or.inr (Or.inr (Or.inr (Or.inr (Or.inr (Or.inr ⟨hs, rfl⟩)))))
    · rw [iteration_mismatch env s _ sz pkt
        (Or.inr (Or.inr (Or.inr (Or.inr (Or.inr (Or.inr ⟨rfl, hs⟩))))))]
      exact Or.inl rfl
  rw [iteration_unknown env s pt sz pkt h1 h2 h3 h4 h5 h6 h7]
  exact Or.inl rfl

/-- The loop goes on after an iteration that executed no `return`. -/
theorem Process_cons_next (env : Env) (s s' : Server) (m : ReadResult) (ms : List ReadResult)
    (ev : List Event) (h : iteration env s m = ⟨s', ev, none⟩) :
    (Process env s (m :: ms)).ret = (Process env s' ms).ret
      ∧ (Process env s (m :: ms)).events = ev ++ (Process env s' ms).events
      ∧ (Process env s (m :: ms)).server = (Process env s' ms).server := by
  simp [Process, h]

/-- The loop ends with the iteration that executed a `return`. -/
theorem Process_cons_ret (env : Env) (s s' : Server) (m : ReadResult) (ms : List ReadResult)
    (ev : List Event) (err : GoError) (h : iteration env s m = ⟨s', ev, some err⟩) :
    Process env s (m :: ms) = ⟨s', ev, some err⟩ := by
  simp [Process, h]

/-- The frames of a concatenated trace. -/
theorem frames_append (a b : List Event) : frames (a ++ b) = frames a ++ frames b := by
  induction a with
  | nil => rfl
  | cons e es ih => cases e <;> simp [frames, ih]

/-- A trace of hook calls only holds no frame. -/
theorem frames_hookCall (hook : Option VerifyFunc) (arg : String) :
    frames (hookCall hook (Event.verifyTunnelCreate arg)) = []
      ∧ frames (hookCall hook (Event.verifyTunnelAuth arg)) = []
      ∧ frames (hookCall hook (Event.verifyServer arg)) = [] := by
  cases hook <;> exact ⟨rfl, rfl, rfl⟩

/-- The hooks `tunnelAuthResponse` leaves in the server record. -/
theorem tunnelAuthResponse_hooks (env : Env) (s : Server) :
    (tunnelAuthResponse env s).2.VerifyServerFunc = s.VerifyServerFunc := by
  unfold tunnelAuthResponse
  by_cases h : s.IdleTimeout < 0 <;> simp [h]

/-- The dialed addresses of a concatenated trace. -/
theorem dials_append (a b : List Event) : dials (a ++ b) = dials a ++ dials b := by
  induction a with
  | nil => rfl
  | cons e es ih => cases e <;> simp [dials, ih]

/-- The frame and the timeout `tunnelAuthResponse` leaves depend on `IdleTimeout` and
`RedirectFlags` only. -/
theorem tunnelAuthResponse_congr (env : Env) (s t : Server)
    (hIdle : s.IdleTimeout = t.IdleTimeout) (hRedir : s.RedirectFlags = t.RedirectFlags) :
    (tunnelAuthResponse env s).1 = (tunnelAuthResponse env t).1
      ∧ (tunnelAuthResponse env s).2.IdleTimeout = (tunnelAuthResponse env t).2.IdleTimeout := by
  unfold tunnelAuthResponse
  by_cases h : s.IdleTimeout < 0
  · have ht : t.IdleTimeout < 0 := hIdle ▸ h
    simp [h, ht, hRedir]
  · have ht : ¬ t.IdleTimeout < 0 := hIdle ▸ h
    simp [h, ht, hRedir, hIdle]

/-- The backend connection `tunnelAuthResponse` leaves in the server record. -/
theorem tunnelAuthResponse_remote (env : Env) (s : Server) :
    (tunnelAuthResponse env s).2.Remote = s.Remote := by
  unfold tunnelAuthResponse
  by_cases h : s.IdleTimeout < 0 <;> simp [h]

/-- What can be observed of an iteration depends on the hooks only through the decisions
of the tunnel-auth and the server hook; it does not depend on `VerifyTunnelCreate`. -/
theorem observable_congr (env : Env) (s t : Server) (m : ReadResult)
    (hState : s.State = t.State) (hRemote : s.Remote = t.Remote)
    (hIdle : s.IdleTimeout = t.IdleTimeout) (hRedir : s.RedirectFlags = t.RedirectFlags)
    (hSC : s.SmartCardAuth = t.SmartCardAuth) (hTok : s.TokenAuth = t.TokenAuth)
    (hAuth : ∀ a, hookAllows s.VerifyTunnelAuthFunc a = hookAllows t.VerifyTunnelAuthFunc a)
    (hSrv : ∀ a, hookAllows s.VerifyServerFunc a = hookAllows t.VerifyServerFunc a) :
    observable (iteration env s m) = observable (iteration env t m) := by
  obtain ⟨pt, sz, pkt, err⟩ := m
  cases err with
  | some e =>
    rw [iteration_readError, iteration_readError]
    simp [observable, hState, hRemote, hIdle]
  | none =>
    by_cases h1 : pt = PKT_TYPE_HANDSHAKE_REQUEST
    · subst h1
      by_cases hs : s.State = SERVER_STATE_INITIAL
      · rw [iteration_handshakeRequest env s sz pkt hs,
          iteration_handshakeRequest env t sz pkt (hState.symm.trans hs)]
        simp [observable, frames, dials, handshakeResponse, hSC, hTok, hRemote, hIdle]
      · rw [iteration_mismatch env s _ sz pkt (Or.inl ⟨rfl, hs⟩),
          iteration_mismatch env t _ sz pkt (Or.inl ⟨rfl, fun h => hs (hState.trans h)⟩)]
        simp [observable, hState, hRemote, hIdle]
    by_cases h2 : pt = PKT_TYPE_TUNNEL_CREATE
    · subst h2
      by_cases hs : s.State = SERVER_STATE_HANDSHAKE
      · rw [iteration_tunnelCreate env s sz pkt hs,
          iteration_tunnelCreate env t sz pkt (hState.symm.trans hs)]
        cases s.VerifyTunnelCreate <;> cases t.VerifyTunnelCreate <;>
          simp [observable, frames, dials, hookCall, hRemote, hIdle]
      · rw [iteration_mismatch env s _ sz pkt (Or.inr (Or.inl ⟨rfl, hs⟩)),
          iteration_mismatch env t _ sz pkt
            (Or.inr (Or.inl ⟨rfl, fun h => hs (hState.trans h)⟩))]
        simp [observable, hState, hRemote, hIdle]
    by_cases h3 : pt = PKT_TYPE_TUNNEL_AUTH
    · subst h3
      by_cases hs : s.State = SERVER_STATE_TUNNEL_CREATE
      · rw [iteration_tunnelAuth env s sz pkt hs,
          iteration_tunnelAuth env t sz pkt (hState.symm.trans hs), hAuth]
        obtain ⟨c1, c2⟩ := tunnelAuthResponse_congr env s t hIdle hRedir
        split
        · cases s.VerifyTunnelAuthFunc <;> cases t.VerifyTunnelAuthFunc <;>
            simp [observable, frames, dials, hookCall, c1, c2, tunnelAuthResponse_remote, hRemote]
        · simp [observable, frames, dials, hState, hRemote, hIdle]
      · rw [iteration_mismatch env s _ sz pkt (Or.inr (Or.inr (Or.inl ⟨rfl, hs⟩))),
          iteration_mismatch env t _ sz pkt
            (Or.inr (Or.inr (Or.inl ⟨rfl, fun h => hs (hState.trans h)⟩)))]
        simp [observable, hState, hRemote, hIdle]
    by_cases h4 : pt = PKT_TYPE_CHANNEL_CREATE
    · subst h4
      by_cases hs : s.State = SERVER_STATE_TUNNEL_AUTHORIZE
      · rw [iteration_channelCreate env s sz pkt hs,
          iteration_channelCreate env t sz pkt (hState.symm.trans hs), hSrv]
        split
        · split <;> cases s.VerifyServerFunc <;> cases t.VerifyServerFunc <;>
            simp [observable, frames, dials, hookCall, hState, hIdle]
        · simp [observable, frames, dials, hState, hRemote, hIdle]
      · rw [iteration_mismatch env s _ sz pkt (Or.inr (Or.inr (Or.inr (Or.inl ⟨rfl, hs⟩)))),
          iteration_mismatch env t _ sz pkt
            (Or.inr (Or.inr (Or.inr (Or.inl ⟨rfl, fun h => hs (hState.trans h)⟩))))]
        simp [observable, hState, hRemote, hIdle]
    by_cases h5 : pt = PKT_TYPE_DATA
    · subst h5
      by_cases hs : s.State < SERVER_STATE_CHANNEL_CREATE
      · rw [iteration_mismatch env s _ sz pkt (Or.inr (Or.inr (Or.inr (Or.inr (Or.inl ⟨rfl, hs⟩))))),
          iteration_mismatch env t _ sz pkt
            (Or.inr (Or.inr (Or.inr (Or.inr (Or.inl ⟨rfl, hState ▸ hs⟩)))))]
        simp [observable, hState, hRemote, hIdle]
      · rw [iteration_data env s sz pkt (not_lt.mp hs),
          iteration_data env t sz pkt (hState ▸ not_lt.mp hs)]
        simp [observable, frames, dials, hRemote, hIdle]
    by_cases h6 : pt = PKT_TYPE_KEEPALIVE
    · subst h6
      by_cases hs : s.State < SERVER_STATE_CHANNEL_CREATE
      · rw [iteration_mismatch env s _ sz pkt (Or.inr (Or.inr (Or.inr (Or.inr (Or.inr (Or.inl ⟨rfl, hs⟩)))))),
          iteration_mismatch env t _ sz pkt
            (Or.inr (Or.inr (Or.inr (Or.inr (Or.inr (Or.inl ⟨rfl, hState ▸ hs⟩))))))]
        simp [observable, hState, hRemote, hIdle]
      · rw [iteration_keepalive env s sz pkt (not_lt.mp hs),
          iteration_keepalive env t sz pkt (hState ▸ not_lt.mp hs)]
        simp [observable, frames, dials, hState, hRemote, hIdle]
    by_cases h7 : pt = PKT_TYPE_CLOSE_CHANNEL
    · subst h7
      by_cases hs : s.State = SERVER_STATE_OPENED
      · rw [iteration_closeChannel env s sz pkt hs,
          iteration_closeChannel env t sz pkt (hState.symm.trans hs)]
        simp [observable, frames, dials, hRemote, hIdle]
      · rw [iteration_mismatch env s _ sz pkt (Or.inr (Or.inr (Or.inr (Or.inr (Or.inr (Or.inr ⟨rfl, hs⟩)))))),
          iteration_mismatch env t _ sz pkt
            (Or.inr (Or.inr (Or.inr (Or.inr (Or.inr (Or.inr
              ⟨rfl, fun h => hs (hState.trans h)⟩))))))]
        simp [observable, hState, hRemote, hIdle]
    rw [iteration_unknown env s pt sz pkt h1 h2 h3 h4 h5 h6 h7,
      iteration_unknown env t pt sz pkt h1 h2 h3 h4 h5 h6 h7]
    simp [observable, frames, dials, hState, hRemote, hIdle]

/-- On a payload that holds the declared number of name bytes `tunnelAuthRequest` decodes
exactly these bytes. -/
theorem tunnelAuthRequest_wellFormed (env : Env) (lo hi : Nat) (name rest : Bytes)
    (h : name.length = lo + 256 * hi) :
    tunnelAuthRequest env (lo :: hi :: (name ++ rest)) = (env.DecodeUTF16 name).1 := by
  simp [tunnelAuthRequest, readUint, readSlice, leValue, h.symm]

/-- The forwarders of a concatenated trace. -/
theorem forwards_append (a b : List Event) : forwards (a ++ b) = forwards a ++ forwards b := by
  induction a with
  | nil => rfl
  | cons e es ih => cases e <;> simp [forwards, ih]

/-- The hook calls of a concatenated trace. -/
theorem hookCalls_append (a b : List Event) :
    hookCalls (a ++ b) = hookCalls a ++ hookCalls b := by
  induction a with
  | nil => rfl
  | cons e es ih => cases e <;> simp [hookCalls, ih]

/-! ## State ordering -/

/-- C1: a handled packet type received in a state that does not satisfy the state it
requires makes the iteration return the error "wrong state"; the only call made is
the `readMessage` itself, so no frame is written, no hook is invoked, the backend is
not dialed, and the server record (the state with it) is unchanged. This holds for every
state value, every payload and every configuration. -/
theorem iteration_wrong_state (env : Env) (s : Server) (pt sz : Nat) (pkt : Bytes)
    (h : (pt = PKT_TYPE_HANDSHAKE_REQUEST ∧ s.State ≠ SERVER_STATE_INITIAL)
      ∨ (pt = PKT_TYPE_TUNNEL_CREATE ∧ s.State ≠ SERVER_STATE_HANDSHAKE)
      ∨ (pt = PKT_TYPE_TUNNEL_AUTH ∧ s.State ≠ SERVER_STATE_TUNNEL_CREATE)
      ∨ (pt = PKT_TYPE_CHANNEL_CREATE ∧ s.State ≠ SERVER_STATE_TUNNEL_AUTHORIZE)
      ∨ (pt = PKT_TYPE_DATA ∧ s.State < SERVER_STATE_CHANNEL_CREATE)
      ∨ (pt = PKT_TYPE_KEEPALIVE ∧ s.State < SERVER_STATE_CHANNEL_CREATE)
      ∨ (pt = PKT_TYPE_CLOSE_CHANNEL ∧ s.State ≠ SERVER_STATE_OPENED)) :
    (iteration env s ⟨pt, sz, pkt, none⟩).ret = some "wrong state"
      ∧ (iteration env s ⟨pt, sz, pkt, none⟩).events = [Event.readMessage]
      ∧ frames (iteration env s ⟨pt, sz, pkt, none⟩).events = []
      ∧ hookCalls (iteration env s ⟨pt, sz, pkt, none⟩).events = []
      ∧ dials (iteration env s ⟨pt, sz, pkt, none⟩).events = []
      ∧ (iteration env s ⟨pt, sz, pkt, none⟩).server = s := by
  have key := iteration_mismatch env s pt sz pkt h
  rw [key]
  simp [frames, hookCalls, dials]

/-- C1, at an input: TUNNEL_CREATE received in state INITIAL. -/
theorem iteration_wrong_state_witness :
    (iteration sampleEnv (serverIn SERVER_STATE_INITIAL)
        ⟨PKT_TYPE_TUNNEL_CREATE, 16, [0, 0, 0, 0, 0, 0, 0, 0], none⟩).ret = some "wrong state"
      ∧ frames (iteration sampleEnv (serverIn SERVER_STATE_INITIAL)
        ⟨PKT_TYPE_TUNNEL_CREATE, 16, [0, 0, 0, 0, 0, 0, 0, 0], none⟩).events = []
      ∧ (iteration sampleEnv (serverIn SERVER_STATE_INITIAL)
        ⟨PKT_TYPE_TUNNEL_CREATE, 16, [0, 0, 0, 0, 0, 0, 0, 0], none⟩).server.State
          = SERVER_STATE_INITIAL := by
  have h := iteration_wrong_state sampleEnv (serverIn SERVER_STATE_INITIAL)
    PKT_TYPE_TUNNEL_CREATE 16 [0, 0, 0, 0, 0, 0, 0, 0]
    (Or.inr (Or.inl ⟨rfl, by decide⟩))
  exact ⟨h.1, h.2.2.1, by rw [h.2.2.2.2.2]; rfl⟩

/-! ## The handshake -/

/-- The frame `tunnelAuthResponse` builds does not depend on the state. -/
theorem tunnelAuthResponse_frame_state (env : Env) (s : Server) (st : Int) :
    (tunnelAuthResponse env { s with State := st }).1 = (tunnelAuthResponse env s).1 := by
  unfold tunnelAuthResponse
  by_cases h : s.IdleTimeout < 0 <;> simp [h]

/-- What `tunnelAuthResponse` leaves of the server record: only `IdleTimeout` may change. -/
theorem tunnelAuthResponse_state (env : Env) (s : Server) :
    (tunnelAuthResponse env s).2.State = s.State := by
  unfold tunnelAuthResponse
  by_cases h : s.IdleTimeout < 0 <;> simp [h]

/-- The handshake from state TUNNEL_AUTHORIZE on. -/
theorem run_from_tunnelAuthorize (env : Env) (s : Server) (z4 : Nat) (p4 : Bytes) (conn : Conn)
    (hs : s.State = SERVER_STATE_TUNNEL_AUTHORIZE)
    (h4 : hookAllows s.VerifyServerFunc (targetHost env p4) = true)
    (hd : env.DialTimeout (targetHost env p4) = Except.ok conn) :
    (Process env s [⟨PKT_TYPE_CHANNEL_CREATE, z4, p4, none⟩]).ret = none
      ∧ frames (Process env s [⟨PKT_TYPE_CHANNEL_CREATE, z4, p4, none⟩]).events
          = [channelResponse env]
      ∧ (Process env s [⟨PKT_TYPE_CHANNEL_CREATE, z4, p4, none⟩]).server.State
          = SERVER_STATE_CHANNEL_CREATE := by
  have e := iteration_channelCreate env s z4 p4 hs
  rw [if_pos h4, hd] at e
  obtain ⟨r1, r2, r3⟩ := Process_cons_next env s _ _ [] _ e
  rw [r1, r2, r3]
  refine ⟨rfl, ?_, rfl⟩
  simp [Process, frames_append, frames_hookCall, frames]

/-- The handshake from state TUNNEL_CREATE on. -/
theorem run_from_tunnelCreate (env : Env) (s : Server) (z3 z4 : Nat) (p3 p4 : Bytes)
    (conn : Conn) (hs : s.State = SERVER_STATE_TUNNEL_CREATE)
    (h3 : hookAllows s.VerifyTunnelAuthFunc (tunnelAuthRequest env p3) = true)
    (h4 : hookAllows s.VerifyServerFunc (targetHost env p4) = true)
    (hd : env.DialTimeout (targetHost env p4) = Except.ok conn) :
    (Process env s [⟨PKT_TYPE_TUNNEL_AUTH, z3, p3, none⟩,
        ⟨PKT_TYPE_CHANNEL_CREATE, z4, p4, none⟩]).ret = none
      ∧ frames (Process env s [⟨PKT_TYPE_TUNNEL_AUTH, z3, p3, none⟩,
          ⟨PKT_TYPE_CHANNEL_CREATE, z4, p4, none⟩]).events
          = [(tunnelAuthResponse env s).1, channelResponse env]
      ∧ (Process env s [⟨PKT_TYPE_TUNNEL_AUTH, z3, p3, none⟩,
          ⟨PKT_TYPE_CHANNEL_CREATE, z4, p4, none⟩]).server.State
          = SERVER_STATE_CHANNEL_CREATE := by
  have e := iteration_tunnelAuth env s z3 p3 hs
  rw [if_pos h3] at e
  obtain ⟨r1, r2, r3⟩ := Process_cons_next env s _ _ [⟨PKT_TYPE_CHANNEL_CREATE, z4, p4, none⟩] _ e
  obtain ⟨q1, q2, q3⟩ := run_from_tunnelAuthorize env
    { (tunnelAuthResponse env s).2 with State := SERVER_STATE_TUNNEL_AUTHORIZE } z4 p4 conn rfl
    (by rw [← tunnelAuthResponse_hooks env s] at h4; exact h4) hd
  rw [r1, r2, r3]
  refine ⟨q1, ?_, q3⟩
  rw [frames_append, q2]
  simp [frames_append, frames_hookCall, frames]

/-- The handshake from state HANDSHAKE on. -/
theorem run_from_handshake (env : Env) (s : Server) (z2 z3 z4 : Nat) (p2 p3 p4 : Bytes)
    (conn : Conn) (hs : s.State = SERVER_STATE_HANDSHAKE)
    (h3 : hookAllows s.VerifyTunnelAuthFunc (tunnelAuthRequest env p3) = true)
    (h4 : hookAllows s.VerifyServerFunc (targetHost env p4) = true)
    (hd : env.DialTimeout (targetHost env p4) = Except.ok conn) :
    (Process env s [⟨PKT_TYPE_TUNNEL_CREATE, z2, p2, none⟩, ⟨PKT_TYPE_TUNNEL_AUTH, z3, p3, none⟩,
        ⟨PKT_TYPE_CHANNEL_CREATE, z4, p4, none⟩]).ret = none
      ∧ frames (Process env s [⟨PKT_TYPE_TUNNEL_CREATE, z2, p2, none⟩,
          ⟨PKT_TYPE_TUNNEL_AUTH, z3, p3, none⟩, ⟨PKT_TYPE_CHANNEL_CREATE, z4, p4, none⟩]).events
          = [tunnelResponse env, (tunnelAuthResponse env s).1, channelResponse env]
      ∧ (Process env s [⟨PKT_TYPE_TUNNEL_CREATE, z2, p2, none⟩,
          ⟨PKT_TYPE_TUNNEL_AUTH, z3, p3, none⟩,
          ⟨PKT_TYPE_CHANNEL_CREATE, z4, p4, none⟩]).server.State
          = SERVER_STATE_CHANNEL_CREATE := by
  have e := iteration_tunnelCreate env s z2 p2 hs
  obtain ⟨r1, r2, r3⟩ := Process_cons_next env s _ _
    [⟨PKT_TYPE_TUNNEL_AUTH, z3, p3, none⟩, ⟨PKT_TYPE_CHANNEL_CREATE, z4, p4, none⟩] _ e
  obtain ⟨q1, q2, q3⟩ := run_from_tunnelCreate env
    { s with State := SERVER_STATE_TUNNEL_CREATE } z3 z4 p3 p4 conn rfl h3 h4 hd
  rw [r1, r2, r3]
  refine ⟨q1, ?_, q3⟩
  rw [frames_append, q2, tunnelAuthResponse_frame_state]
  simp [frames_append, frames_hookCall, frames]

/-- The handshake from state INITIAL on. -/
theorem run_from_initial (env : Env) (s : Server) (z1 z2 z3 z4 : Nat) (p1 p2 p3 p4 : Bytes)
    (conn : Conn) (hs : s.State = SERVER_STATE_INITIAL)
    (h3 : hookAllows s.VerifyTunnelAuthFunc (tunnelAuthRequest env p3) = true)
    (h4 : hookAllows s.VerifyServerFunc (targetHost env p4) = true)
    (hd : env.DialTimeout (targetHost env p4) = Except.ok conn) :
    (Process env s [⟨PKT_TYPE_HANDSHAKE_REQUEST, z1, p1, none⟩,
        ⟨PKT_TYPE_TUNNEL_CREATE, z2, p2, none⟩, ⟨PKT_TYPE_TUNNEL_AUTH, z3, p3, none⟩,
        ⟨PKT_TYPE_CHANNEL_CREATE, z4, p4, none⟩]).ret = none
      ∧ frames (Process env s [⟨PKT_TYPE_HANDSHAKE_REQUEST, z1, p1, none⟩,
          ⟨PKT_TYPE_TUNNEL_CREATE, z2, p2, none⟩, ⟨PKT_TYPE_TUNNEL_AUTH, z3, p3, none⟩,
          ⟨PKT_TYPE_CHANNEL_CREATE, z4, p4, none⟩]).events
          = [handshakeResponse env s (handshakeRequest p1).1 (handshakeRequest p1).2.1,
             tunnelResponse env, (tunnelAuthResponse env s).1, channelResponse env]
      ∧ (Process env s [⟨PKT_TYPE_HANDSHAKE_REQUEST, z1, p1, none⟩,
          ⟨PKT_TYPE_TUNNEL_CREATE, z2, p2, none⟩, ⟨PKT_TYPE_TUNNEL_AUTH, z3, p3, none⟩,
          ⟨PKT_TYPE_CHANNEL_CREATE, z4, p4, none⟩]).server.State
          = SERVER_STATE_CHANNEL_CREATE := by
  have e := iteration_handshakeRequest env s z1 p1 hs
  obtain ⟨r1, r2, r3⟩ := Process_cons_next env s _ _
    [⟨PKT_TYPE_TUNNEL_CREATE, z2, p2, none⟩, ⟨PKT_TYPE_TUNNEL_AUTH, z3, p3, none⟩,
      ⟨PKT_TYPE_CHANNEL_CREATE, z4, p4, none⟩] _ e
  obtain ⟨q1, q2, q3⟩ := run_from_handshake env
    { s with State := SERVER_STATE_HANDSHAKE } z2 z3 z4 p2 p3 p4 conn rfl h3 h4 hd
  rw [r1, r2, r3]
  refine ⟨q1, ?_, q3⟩
  rw [frames_append, q2, tunnelAuthResponse_frame_state]
  simp [frames]

/-- C2: each of the four handshake packets, received in the state it requires with its
hook absent or allowing (and, for CHANNEL_CREATE, a dial that succeeds), makes the
iteration return no error, write exactly one frame, the response of the matching type
built by the matching method, and set the next state; and a server made by `NewServer`
that reads the four packets in order has written exactly the four responses, in order,
is in state CHANNEL_CREATE and has not returned. -/
theorem handshake_transitions (env : Env) (c : RedirConsts) :
    (∀ (s : Server) (sz : Nat) (pkt : Bytes), s.State = SERVER_STATE_INITIAL →
      (iteration env s ⟨PKT_TYPE_HANDSHAKE_REQUEST, sz, pkt, none⟩).ret = none
      ∧ frames (iteration env s ⟨PKT_TYPE_HANDSHAKE_REQUEST, sz, pkt, none⟩).events
          = [handshakeResponse env s (handshakeRequest pkt).1 (handshakeRequest pkt).2.1]
      ∧ (∃ p, handshakeResponse env s (handshakeRequest pkt).1 (handshakeRequest pkt).2.1
          = env.createPacket PKT_TYPE_HANDSHAKE_RESPONSE p)
      ∧ (iteration env s ⟨PKT_TYPE_HANDSHAKE_REQUEST, sz, pkt, none⟩).server.State
          = SERVER_STATE_HANDSHAKE)
    ∧ (∀ (s : Server) (sz : Nat) (pkt : Bytes), s.State = SERVER_STATE_HANDSHAKE →
      hookAllows s.VerifyTunnelCreate (tunnelRequest env pkt).2 = true →
      (iteration env s ⟨PKT_TYPE_TUNNEL_CREATE, sz, pkt, none⟩).ret = none
      ∧ frames (iteration env s ⟨PKT_TYPE_TUNNEL_CREATE, sz, pkt, none⟩).events
          = [tunnelResponse env]
      ∧ (∃ p, tunnelResponse env = env.createPacket PKT_TYPE_TUNNEL_RESPONSE p)
      ∧ (iteration env s ⟨PKT_TYPE_TUNNEL_CREATE, sz, pkt, none⟩).server.State
          = SERVER_STATE_TUNNEL_CREATE)
    ∧ (∀ (s : Server) (sz : Nat) (pkt : Bytes), s.State = SERVER_STATE_TUNNEL_CREATE →
      hookAllows s.VerifyTunnelAuthFunc (tunnelAuthRequest env pkt) = true →
      (iteration env s ⟨PKT_TYPE_TUNNEL_AUTH, sz, pkt, none⟩).ret = none
      ∧ frames (iteration env s ⟨PKT_TYPE_TUNNEL_AUTH, sz, pkt, none⟩).events
          = [(tunnelAuthResponse env s).1]
      ∧ (∃ p, (tunnelAuthResponse env s).1
          = env.createPacket PKT_TYPE_TUNNEL_AUTH_RESPONSE p)
      ∧ (iteration env s ⟨PKT_TYPE_TUNNEL_AUTH, sz, pkt, none⟩).server.State
          = SERVER_STATE_TUNNEL_AUTHORIZE)
    ∧ (∀ (s : Server) (sz : Nat) (pkt : Bytes) (conn : Conn),
      s.State = SERVER_STATE_TUNNEL_AUTHORIZE →
      hookAllows s.VerifyServerFunc (targetHost env pkt) = true →
      env.DialTimeout (targetHost env pkt) = Except.ok conn →
      (iteration env s ⟨PKT_TYPE_CHANNEL_CREATE, sz, pkt, none⟩).ret = none
      ∧ frames (iteration env s ⟨PKT_TYPE_CHANNEL_CREATE, sz, pkt, none⟩).events
          = [channelResponse env]
      ∧ (∃ p, channelResponse env = env.createPacket PKT_TYPE_CHANNEL_RESPONSE p)
      ∧ (iteration env s ⟨PKT_TYPE_CHANNEL_CREATE, sz, pkt, none⟩).server.State
          = SERVER_STATE_CHANNEL_CREATE)
    ∧ (∀ (conf : ServerConf) (z1 z2 z3 z4 : Nat) (p1 p2 p3 p4 : Bytes) (conn : Conn),
      hookAllows conf.VerifyTunnelCreate (tunnelRequest env p2).2 = true →
      hookAllows conf.VerifyTunnelAuthFunc (tunnelAuthRequest env p3) = true →
      hookAllows conf.VerifyServerFunc (targetHost env p4) = true →
      env.DialTimeout (targetHost env p4) = Except.ok conn →
      (Process env (NewServer c conf)
          [⟨PKT_TYPE_HANDSHAKE_REQUEST, z1, p1, none⟩, ⟨PKT_TYPE_TUNNEL_CREATE, z2, p2, none⟩,
           ⟨PKT_TYPE_TUNNEL_AUTH, z3, p3, none⟩, ⟨PKT_TYPE_CHANNEL_CREATE, z4, p4, none⟩]).ret
        = none
      ∧ frames (Process env (NewServer c conf)
          [⟨PKT_TYPE_HANDSHAKE_REQUEST, z1, p1, none⟩, ⟨PKT_TYPE_TUNNEL_CREATE, z2, p2, none⟩,
           ⟨PKT_TYPE_TUNNEL_AUTH, z3, p3, none⟩, ⟨PKT_TYPE_CHANNEL_CREATE, z4, p4, none⟩]).events
        = [handshakeResponse env (NewServer c conf) (handshakeRequest p1).1
              (handshakeRequest p1).2.1,
           tunnelResponse env, (tunnelAuthResponse env (NewServer c conf)).1,
           channelResponse env]
      ∧ (Process env (NewServer c conf)
          [⟨PKT_TYPE_HANDSHAKE_REQUEST, z1, p1, none⟩, ⟨PKT_TYPE_TUNNEL_CREATE, z2, p2, none⟩,
           ⟨PKT_TYPE_TUNNEL_AUTH, z3, p3, none⟩, ⟨PKT_TYPE_CHANNEL_CREATE, z4, p4, none⟩]).server.State
        = SERVER_STATE_CHANNEL_CREATE) := by
  refine ⟨?_, ?_, ?_, ?_, ?_⟩
  · intro s sz pkt h
    rw [iteration_handshakeRequest env s sz pkt h]
    exact ⟨rfl, rfl, ⟨_, rfl⟩, rfl⟩
  · intro s sz pkt h _
    rw [iteration_tunnelCreate env s sz pkt h]
    refine ⟨rfl, ?_, ⟨_, rfl⟩, rfl⟩
    simp [frames_append, frames_hookCall, frames]
  · intro s sz pkt h ha
    rw [iteration_tunnelAuth env s sz pkt h, if_pos ha]
    refine ⟨rfl, ?_, ⟨_, rfl⟩, rfl⟩
    simp [frames_append, frames_hookCall, frames]
  · intro s sz pkt conn h ha hd
    rw [iteration_channelCreate env s sz pkt h, if_pos ha, hd]
    refine ⟨rfl, ?_, ⟨_, rfl⟩, rfl⟩
    simp [frames_append, frames_hookCall, frames]
  · intro conf z1 z2 z3 z4 p1 p2 p3 p4 conn _ h3 h4 hd
    exact run_from_initial env (NewServer c conf) z1 z2 z3 z4 p1 p2 p3 p4 conn rfl h3 h4 hd

/-- C2, at an input: the happy path of a server without hooks whose backend is
reachable. -/
theorem handshake_transitions_witness :
    (Process sampleEnv (NewServer sampleRedirConsts sampleConf)
        [⟨PKT_TYPE_HANDSHAKE_REQUEST, 14, sampleHandshakeRequest, none⟩,
         ⟨PKT_TYPE_TUNNEL_CREATE, 16, sampleTunnelCreate, none⟩,
         ⟨PKT_TYPE_TUNNEL_AUTH, 28, sampleTunnelAuth, none⟩,
         ⟨PKT_TYPE_CHANNEL_CREATE, 36, sampleChannelCreate, none⟩]).ret = none
      ∧ frames (Process sampleEnv (NewServer sampleRedirConsts sampleConf)
        [⟨PKT_TYPE_HANDSHAKE_REQUEST, 14, sampleHandshakeRequest, none⟩,
         ⟨PKT_TYPE_TUNNEL_CREATE, 16, sampleTunnelCreate, none⟩,
         ⟨PKT_TYPE_TUNNEL_AUTH, 28, sampleTunnelAuth, none⟩,
         ⟨PKT_TYPE_CHANNEL_CREATE, 36, sampleChannelCreate, none⟩]).events
        = [handshakeResponse sampleEnv (NewServer sampleRedirConsts sampleConf)
              (handshakeRequest sampleHandshakeRequest).1
              (handshakeRequest sampleHandshakeRequest).2.1,
           tunnelResponse sampleEnv,
           (tunnelAuthResponse sampleEnv (NewServer sampleRedirConsts sampleConf)).1,
           channelResponse sampleEnv]
      ∧ (Process sampleEnv (NewServer sampleRedirConsts sampleConf)
        [⟨PKT_TYPE_HANDSHAKE_REQUEST, 14, sampleHandshakeRequest, none⟩,
         ⟨PKT_TYPE_TUNNEL_CREATE, 16, sampleTunnelCreate, none⟩,
         ⟨PKT_TYPE_TUNNEL_AUTH, 28, sampleTunnelAuth, none⟩,
         ⟨PKT_TYPE_CHANNEL_CREATE, 36, sampleChannelCreate, none⟩]).server.State
        = SERVER_STATE_CHANNEL_CREATE :=
  (handshake_transitions sampleEnv sampleRedirConsts).2.2.2.2 sampleConf 14 16 28 36
    sampleHandshakeRequest sampleTunnelCreate sampleTunnelAuth sampleChannelCreate 1
    rfl rfl rfl rfl

/-! ## After the handshake -/

/-- C3: in a state at or after CHANNEL_CREATE a DATA packet makes the iteration call
`receive` once, with exactly the payload read and the backend connection, and set the
state to OPENED, and a KEEPALIVE packet leaves the server record unchanged; a packet
whose type no case of the switch names leaves the server record unchanged in every
state. None of the three returns an error or writes a frame. -/
theorem data_keepalive_unknown (env : Env) (s : Server) (sz : Nat) (pkt : Bytes) :
    (SERVER_STATE_CHANNEL_CREATE ≤ s.State →
      (iteration env s ⟨PKT_TYPE_DATA, sz, pkt, none⟩).ret = none
      ∧ (iteration env s ⟨PKT_TYPE_DATA, sz, pkt, none⟩).events
          = [Event.readMessage, Event.receive pkt s.Remote]
      ∧ receives (iteration env s ⟨PKT_TYPE_DATA, sz, pkt, none⟩).events = [(pkt, s.Remote)]
      ∧ frames (iteration env s ⟨PKT_TYPE_DATA, sz, pkt, none⟩).events = []
      ∧ (iteration env s ⟨PKT_TYPE_DATA, sz, pkt, none⟩).server.State = SERVER_STATE_OPENED)
    ∧ (SERVER_STATE_CHANNEL_CREATE ≤ s.State →
      (iteration env s ⟨PKT_TYPE_KEEPALIVE, sz, pkt, none⟩).ret = none
      ∧ frames (iteration env s ⟨PKT_TYPE_KEEPALIVE, sz, pkt, none⟩).events = []
      ∧ (iteration env s ⟨PKT_TYPE_KEEPALIVE, sz, pkt, none⟩).server = s)
    ∧ (∀ pt : Nat, pt ≠ PKT_TYPE_HANDSHAKE_REQUEST → pt ≠ PKT_TYPE_TUNNEL_CREATE →
      pt ≠ PKT_TYPE_TUNNEL_AUTH → pt ≠ PKT_TYPE_CHANNEL_CREATE → pt ≠ PKT_TYPE_DATA →
      pt ≠ PKT_TYPE_KEEPALIVE → pt ≠ PKT_TYPE_CLOSE_CHANNEL →
      (iteration env s ⟨pt, sz, pkt, none⟩).ret = none
      ∧ frames (iteration env s ⟨pt, sz, pkt, none⟩).events = []
      ∧ (iteration env s ⟨pt, sz, pkt, none⟩).server = s) := by
  refine ⟨?_, ?_, ?_⟩
  · intro h
    rw [iteration_data env s sz pkt h]
    exact ⟨rfl, rfl, rfl, rfl, rfl⟩
  · intro h
    rw [iteration_keepalive env s sz pkt h]
    exact ⟨rfl, rfl, rfl⟩
  · intro pt h1 h2 h3 h4 h5 h6 h7
    rw [iteration_unknown env s pt sz pkt h1 h2 h3 h4 h5 h6 h7]
    exact ⟨rfl, rfl, rfl⟩

/-- C3, at an input: the payload "hello" as DATA and a KEEPALIVE in state
CHANNEL_CREATE, and a packet of type 9 in state INITIAL. -/
theorem data_keepalive_unknown_witness :
    receives (iteration sampleEnv (serverIn SERVER_STATE_CHANNEL_CREATE)
        ⟨PKT_TYPE_DATA, 13, [104, 101, 108, 108, 111], none⟩).events
        = [([104, 101, 108, 108, 111], none)]
      ∧ (iteration sampleEnv (serverIn SERVER_STATE_CHANNEL_CREATE)
        ⟨PKT_TYPE_DATA, 13, [104, 101, 108, 108, 111], none⟩).server.State
        = SERVER_STATE_OPENED
      ∧ (iteration sampleEnv (serverIn SERVER_STATE_CHANNEL_CREATE)
        ⟨PKT_TYPE_KEEPALIVE, 8, [], none⟩).server = serverIn SERVER_STATE_CHANNEL_CREATE
      ∧ (iteration sampleEnv (serverIn SERVER_STATE_INITIAL) ⟨9, 8, [], none⟩).ret = none
      ∧ (iteration sampleEnv (serverIn SERVER_STATE_INITIAL) ⟨9, 8, [], none⟩).server
        = serverIn SERVER_STATE_INITIAL := by
  have hd := (data_keepalive_unknown sampleEnv (serverIn SERVER_STATE_CHANNEL_CREATE) 13
    [104, 101, 108, 108, 111]).1 (by decide)
  have hk := (data_keepalive_unknown sampleEnv (serverIn SERVER_STATE_CHANNEL_CREATE) 8
    []).2.1 (by decide)
  have hu := (data_keepalive_unknown sampleEnv (serverIn SERVER_STATE_INITIAL) 8 []).2.2 9
    (by decide) (by decide) (by decide) (by decide) (by decide) (by decide) (by decide)
  exact ⟨hd.2.2.1, hd.2.2.2.2, hk.2.2, hu.1, hu.2.2⟩

/-! ## Order of the states -/

/-- C4, as stated, fails: a DATA packet read in state CLOSED passes the check
`s.State < SERVER_STATE_CHANNEL_CREATE` and the state is set back to OPENED, which is
below CLOSED. -/
theorem state_monotone_counterexample :
    (serverIn SERVER_STATE_CLOSED).State = SERVER_STATE_CLOSED
      ∧ (iteration sampleEnv (serverIn SERVER_STATE_CLOSED)
          ⟨PKT_TYPE_DATA, 9, [0], none⟩).server.State = SERVER_STATE_OPENED
      ∧ ¬ ((serverIn SERVER_STATE_CLOSED).State
          ≤ (iteration sampleEnv (serverIn SERVER_STATE_CLOSED)
              ⟨PKT_TYPE_DATA, 9, [0], none⟩).server.State) := by
  decide

/-- C4, amended: an iteration never lowers the state, and leaves the state CLOSED as it
is, for every packet other than a DATA packet read in a state above OPENED (of the
seven states: in CLOSED). -/
theorem state_monotone_except_data (env : Env) (s : Server) (pt sz : Nat) (pkt : Bytes)
    (h : pt = PKT_TYPE_DATA → s.State ≤ SERVER_STATE_OPENED) :
    s.State ≤ (iteration env s ⟨pt, sz, pkt, none⟩).server.State
      ∧ (s.State = SERVER_STATE_CLOSED →
          (iteration env s ⟨pt, sz, pkt, none⟩).server.State = SERVER_STATE_CLOSED) := by
  have hc := iteration_state_cases env s pt sz pkt
  simp only [SERVER_STATE_INITIAL, SERVER_STATE_HANDSHAKE, SERVER_STATE_TUNNEL_CREATE,
    SERVER_STATE_TUNNEL_AUTHORIZE, SERVER_STATE_CHANNEL_CREATE, SERVER_STATE_OPENED,
    SERVER_STATE_CLOSED] at hc h ⊢
  rcases hc with hc | ⟨h0, hc⟩ | ⟨h0, hc⟩ | ⟨h0, hc⟩ | ⟨h0, hc⟩ | ⟨hp, h0, hc⟩ | ⟨h0, hc⟩
  · exact ⟨by omega, fun h6 => by omega⟩
  · exact ⟨by omega, fun h6 => by omega⟩
  · exact ⟨by omega, fun h6 => by omega⟩
  · exact ⟨by omega, fun h6 => by omega⟩
  · exact ⟨by omega, fun h6 => by omega⟩
  · have h5 := h hp
    exact ⟨by omega, fun h6 => by omega⟩
  · exact ⟨by omega, fun h6 => by omega⟩

/-- C4, amended, at an input: a DATA packet in state CHANNEL_CREATE, and a CLOSE_CHANNEL
packet in state CLOSED. -/
theorem state_monotone_except_data_witness :
    (serverIn SERVER_STATE_CHANNEL_CREATE).State
        ≤ (iteration sampleEnv (serverIn SERVER_STATE_CHANNEL_CREATE)
            ⟨PKT_TYPE_DATA, 9, [0], none⟩).server.State
      ∧ (iteration sampleEnv (serverIn SERVER_STATE_CLOSED)
            ⟨PKT_TYPE_CLOSE_CHANNEL, 8, [], none⟩).server.State = SERVER_STATE_CLOSED :=
  ⟨(state_monotone_except_data sampleEnv (serverIn SERVER_STATE_CHANNEL_CREATE)
      PKT_TYPE_DATA 9 [0] (fun _ => by decide)).1,
   (state_monotone_except_data sampleEnv (serverIn SERVER_STATE_CLOSED)
      PKT_TYPE_CLOSE_CHANNEL 8 [] (fun hp => absurd hp (by decide))).2 rfl⟩

/-! ## Closing the channel -/

/-- C5, as stated, fails: after a CLOSE_CHANNEL packet in state OPENED `Process` has
not returned (first part), it calls `readMessage` again after the two `Close` calls,
and when that read fails `Process` returns the read error (second part). -/
theorem close_channel_counterexample :
    (Process sampleEnv (serverIn SERVER_STATE_OPENED)
        [⟨PKT_TYPE_CLOSE_CHANNEL, 8, [], none⟩]).ret = none
      ∧ (Process sampleEnv (serverIn SERVER_STATE_OPENED)
        [⟨PKT_TYPE_CLOSE_CHANNEL, 8, [], none⟩,
         ⟨0, 0, [], some "use of closed network connection"⟩]).events
        = [Event.readMessage, Event.closeIn, Event.closeOut, Event.readMessage]
      ∧ (Process sampleEnv (serverIn SERVER_STATE_OPENED)
        [⟨PKT_TYPE_CLOSE_CHANNEL, 8, [], none⟩,
         ⟨0, 0, [], some "use of closed network connection"⟩]).ret
        = some "use of closed network connection" := by
  decide

/-- C5, amended: on a CLOSE_CHANNEL packet in state OPENED the iteration closes the
inbound and then the outbound transport half, sets the state to CLOSED and executes
no `return`; `Process` goes on with the next `readMessage` from state CLOSED, so it
has not returned when the script ends there, and when the next read fails it returns
that error. -/
theorem close_channel_continues (env : Env) (s : Server) (sz : Nat) (pkt : Bytes)
    (ms : List ReadResult) (h : s.State = SERVER_STATE_OPENED) :
    iteration env s ⟨PKT_TYPE_CLOSE_CHANNEL, sz, pkt, none⟩
        = ⟨{ s with State := SERVER_STATE_CLOSED },
            [Event.readMessage, Event.closeIn, Event.closeOut], none⟩
      ∧ (Process env s (⟨PKT_TYPE_CLOSE_CHANNEL, sz, pkt, none⟩ :: ms)).events
        = [Event.readMessage, Event.closeIn, Event.closeOut]
            ++ (Process env { s with State := SERVER_STATE_CLOSED } ms).events
      ∧ (Process env s (⟨PKT_TYPE_CLOSE_CHANNEL, sz, pkt, none⟩ :: ms)).ret
        = (Process env { s with State := SERVER_STATE_CLOSED } ms).ret
      ∧ (Process env s [⟨PKT_TYPE_CLOSE_CHANNEL, sz, pkt, none⟩]).ret = none
      ∧ (Process env s [⟨PKT_TYPE_CLOSE_CHANNEL, sz, pkt, none⟩]).server.State
        = SERVER_STATE_CLOSED
      ∧ (∀ (pt2 sz2 : Nat) (pkt2 : Bytes) (err : GoError),
          Process env s
              (⟨PKT_TYPE_CLOSE_CHANNEL, sz, pkt, none⟩ :: ⟨pt2, sz2, pkt2, some err⟩ :: ms)
            = ⟨{ s with State := SERVER_STATE_CLOSED },
                [Event.readMessage, Event.closeIn, Event.closeOut, Event.readMessage],
                some err⟩) := by
  have e := iteration_closeChannel env s sz pkt h
  refine ⟨e, ?_, ?_, ?_, ?_, ?_⟩
  · exact (Process_cons_next env s _ _ ms _ e).2.1
  · exact (Process_cons_next env s _ _ ms _ e).1
  · rw [(Process_cons_next env s _ _ [] _ e).1]; rfl
  · rw [(Process_cons_next env s _ _ [] _ e).2.2]; rfl
  · intro pt2 sz2 pkt2 err
    simp [Process, e, iteration_readError]

/-- C5, amended, at an input: CLOSE_CHANNEL in state OPENED, followed by a failing
read. -/
theorem close_channel_continues_witness :
    (Process sampleEnv (serverIn SERVER_STATE_OPENED)
        [⟨PKT_TYPE_CLOSE_CHANNEL, 8, [], none⟩]).ret = none
      ∧ Process sampleEnv (serverIn SERVER_STATE_OPENED)
          [⟨PKT_TYPE_CLOSE_CHANNEL, 8, [], none⟩, ⟨0, 0, [], some "EOF"⟩]
        = ⟨{ serverIn SERVER_STATE_OPENED with State := SERVER_STATE_CLOSED },
            [Event.readMessage, Event.closeIn, Event.closeOut, Event.readMessage],
            some "EOF"⟩ :=
  ⟨(close_channel_continues sampleEnv (serverIn SERVER_STATE_OPENED) 8 [] [] rfl).2.2.2.1,
   (close_channel_continues sampleEnv (serverIn SERVER_STATE_OPENED) 8 [] [] rfl).2.2.2.2.2
      0 0 [] "EOF"⟩

/-! ## Verification hooks and the dial -/

/-- C6: for a TUNNEL_AUTH packet in state TUNNEL_CREATE with `VerifyTunnelAuthFunc`
configured, the hook is called once, with the string `tunnelAuthRequest` returns, which
for a payload made of a u16 little-endian size, that many name bytes and anything after
them is `DecodeUTF16` of exactly the name bytes; when the hook returns false the
iteration returns the error "invalid client name", writes no frame and leaves the server
record, with its state TUNNEL_CREATE, unchanged. -/
theorem tunnel_auth_denial (env : Env) (s : Server) (sz : Nat) (pkt : Bytes) (f : VerifyFunc)
    (hs : s.State = SERVER_STATE_TUNNEL_CREATE) (hf : s.VerifyTunnelAuthFunc = some f) :
    hookCalls (iteration env s ⟨PKT_TYPE_TUNNEL_AUTH, sz, pkt, none⟩).events
        = [Event.verifyTunnelAuth (tunnelAuthRequest env pkt)]
      ∧ (∀ (lo hi : Nat) (name rest : Bytes), pkt = lo :: hi :: (name ++ rest) →
          name.length = lo + 256 * hi →
          tunnelAuthRequest env pkt = (env.DecodeUTF16 name).1)
      ∧ ((f (tunnelAuthRequest env pkt)).1 = false →
          (iteration env s ⟨PKT_TYPE_TUNNEL_AUTH, sz, pkt, none⟩).ret
              = some "invalid client name"
          ∧ frames (iteration env s ⟨PKT_TYPE_TUNNEL_AUTH, sz, pkt, none⟩).events = []
          ∧ (iteration env s ⟨PKT_TYPE_TUNNEL_AUTH, sz, pkt, none⟩).server = s
          ∧ (iteration env s ⟨PKT_TYPE_TUNNEL_AUTH, sz, pkt, none⟩).server.State
              = SERVER_STATE_TUNNEL_CREATE) := by
  have e := iteration_tunnelAuth env s sz pkt hs
  have ha : hookAllows s.VerifyTunnelAuthFunc (tunnelAuthRequest env pkt)
      = (f (tunnelAuthRequest env pkt)).1 := by simp [hookAllows, hf]
  rw [ha, hf] at e
  refine ⟨?_, ?_, ?_⟩
  · by_cases hd : (f (tunnelAuthRequest env pkt)).1 = true
    · rw [e, if_pos hd]; rfl
    · rw [e, if_neg hd]; rfl
  · intro lo hi name rest hp hl
    rw [hp]
    exact tunnelAuthRequest_wellFormed env lo hi name rest hl
  · intro hd
    rw [e, if_neg (by simp [hd])]
    exact ⟨rfl, rfl, rfl, hs⟩

/-- C6, at an input: a hook that denies the client name "blocked". -/
theorem tunnel_auth_denial_witness :
    (iteration sampleEnv
        { serverIn SERVER_STATE_TUNNEL_CREATE with
          VerifyTunnelAuthFunc := some (fun name => (name != "blocked", none)) }
        ⟨PKT_TYPE_TUNNEL_AUTH, 26, blockedTunnelAuth, none⟩).ret = some "invalid client name"
      ∧ frames (iteration sampleEnv
        { serverIn SERVER_STATE_TUNNEL_CREATE with
          VerifyTunnelAuthFunc := some (fun name => (name != "blocked", none)) }
        ⟨PKT_TYPE_TUNNEL_AUTH, 26, blockedTunnelAuth, none⟩).events = []
      ∧ hookCalls (iteration sampleEnv
        { serverIn SERVER_STATE_TUNNEL_CREATE with
          VerifyTunnelAuthFunc := some (fun name => (name != "blocked", none)) }
        ⟨PKT_TYPE_TUNNEL_AUTH, 26, blockedTunnelAuth, none⟩).events
        = [Event.verifyTunnelAuth "blocked"] := by
  have h := tunnel_auth_denial sampleEnv
    { serverIn SERVER_STATE_TUNNEL_CREATE with
      VerifyTunnelAuthFunc := some (fun name => (name != "blocked", none)) }
    26 blockedTunnelAuth (fun name => (name != "blocked", none)) rfl rfl
  have hd := h.2.2 (by decide)
  exact ⟨hd.1, hd.2.1, h.1.trans (by decide)⟩

/-- C7: for a CHANNEL_CREATE packet in state TUNNEL_AUTHORIZE with `VerifyServerFunc`
configured, the hook is called once, with `JoinHostPort(server, Itoa(port))` of the
decoded server and port; when it allows, that same string is the address dialed; when
it returns false the iteration returns the error "denied by security policy" without a
dial, without a frame, without a forwarder, and leaves the server record, with its state
TUNNEL_AUTHORIZE, unchanged. -/
theorem server_denial (env : Env) (s : Server) (sz : Nat) (pkt : Bytes) (f : VerifyFunc)
    (hs : s.State = SERVER_STATE_TUNNEL_AUTHORIZE) (hf : s.VerifyServerFunc = some f) :
    hookCalls (iteration env s ⟨PKT_TYPE_CHANNEL_CREATE, sz, pkt, none⟩).events
        = [Event.verifyServer
            (env.JoinHostPort (channelRequest env pkt).1 (Itoa (channelRequest env pkt).2))]
      ∧ ((f (env.JoinHostPort (channelRequest env pkt).1
              (Itoa (channelRequest env pkt).2))).1 = true →
          dials (iteration env s ⟨PKT_TYPE_CHANNEL_CREATE, sz, pkt, none⟩).events
            = [env.JoinHostPort (channelRequest env pkt).1 (Itoa (channelRequest env pkt).2)])
      ∧ ((f (env.JoinHostPort (channelRequest env pkt).1
              (Itoa (channelRequest env pkt).2))).1 = false →
          (iteration env s ⟨PKT_TYPE_CHANNEL_CREATE, sz, pkt, none⟩).ret
              = some "denied by security policy"
          ∧ dials (iteration env s ⟨PKT_TYPE_CHANNEL_CREATE, sz, pkt, none⟩).events = []
          ∧ frames (iteration env s ⟨PKT_TYPE_CHANNEL_CREATE, sz, pkt, none⟩).events = []
          ∧ forwards (iteration env s ⟨PKT_TYPE_CHANNEL_CREATE, sz, pkt, none⟩).events = []
          ∧ (iteration env s ⟨PKT_TYPE_CHANNEL_CREATE, sz, pkt, none⟩).server = s
          ∧ (iteration env s ⟨PKT_TYPE_CHANNEL_CREATE, sz, pkt, none⟩).server.State
              = SERVER_STATE_TUNNEL_AUTHORIZE) := by
  have e := iteration_channelCreate env s sz pkt hs
  have ha : hookAllows s.VerifyServerFunc (targetHost env pkt)
      = (f (targetHost env pkt)).1 := by simp [hookAllows, hf]
  rw [ha, hf] at e
  change hookCalls _ = [Event.verifyServer (targetHost env pkt)]
    ∧ ((f (targetHost env pkt)).1 = true → dials _ = [targetHost env pkt])
    ∧ ((f (targetHost env pkt)).1 = false → _)
  refine ⟨?_, ?_, ?_⟩
  · by_cases hd : (f (targetHost env pkt)).1 = true
    · rw [e, if_pos hd]
      cases env.DialTimeout (targetHost env pkt) <;> rfl
    · rw [e, if_neg hd]; rfl
  · intro hd
    rw [e, if_pos hd]
    cases env.DialTimeout (targetHost env pkt) <;> rfl
  · intro hd
    rw [e, if_neg (by simp [hd])]
    exact ⟨rfl, rfl, rfl, rfl, rfl, hs⟩

/-- C7, at an input: a hook that denies every address. -/
theorem server_denial_witness :
    (iteration sampleEnv
        { serverIn SERVER_STATE_TUNNEL_AUTHORIZE with VerifyServerFunc := some denyAll }
        ⟨PKT_TYPE_CHANNEL_CREATE, 36, sampleChannelCreate, none⟩).ret
        = some "denied by security policy"
      ∧ dials (iteration sampleEnv
        { serverIn SERVER_STATE_TUNNEL_AUTHORIZE with VerifyServerFunc := some denyAll }
        ⟨PKT_TYPE_CHANNEL_CREATE, 36, sampleChannelCreate, none⟩).events = []
      ∧ (iteration sampleEnv
        { serverIn SERVER_STATE_TUNNEL_AUTHORIZE with VerifyServerFunc := some denyAll }
        ⟨PKT_TYPE_CHANNEL_CREATE, 36, sampleChannelCreate, none⟩).server.State
        = SERVER_STATE_TUNNEL_AUTHORIZE := by
  have h := (server_denial sampleEnv
    { serverIn SERVER_STATE_TUNNEL_AUTHORIZE with VerifyServerFunc := some denyAll }
    36 sampleChannelCreate denyAll rfl rfl).2.2 rfl
  exact ⟨h.1, h.2.1, h.2.2.2.2.2⟩

/-- C8: for a CHANNEL_CREATE packet in state TUNNEL_AUTHORIZE that passes the server
verification, a dial that returns an error makes the iteration return that error; the
address was dialed once, no frame was written, no forwarder was started, and the state
is still TUNNEL_AUTHORIZE. -/
theorem dial_failure (env : Env) (s : Server) (sz : Nat) (pkt : Bytes) (err : GoError)
    (hs : s.State = SERVER_STATE_TUNNEL_AUTHORIZE)
    (ha : hookAllows s.VerifyServerFunc
      (env.JoinHostPort (channelRequest env pkt).1 (Itoa (channelRequest env pkt).2)) = true)
    (hd : env.DialTimeout
      (env.JoinHostPort (channelRequest env pkt).1 (Itoa (channelRequest env pkt).2))
        = Except.error err) :
    (iteration env s ⟨PKT_TYPE_CHANNEL_CREATE, sz, pkt, none⟩).ret = some err
      ∧ dials (iteration env s ⟨PKT_TYPE_CHANNEL_CREATE, sz, pkt, none⟩).events
          = [env.JoinHostPort (channelRequest env pkt).1 (Itoa (channelRequest env pkt).2)]
      ∧ frames (iteration env s ⟨PKT_TYPE_CHANNEL_CREATE, sz, pkt, none⟩).events = []
      ∧ forwards (iteration env s ⟨PKT_TYPE_CHANNEL_CREATE, sz, pkt, none⟩).events = []
      ∧ (iteration env s ⟨PKT_TYPE_CHANNEL_CREATE, sz, pkt, none⟩).server.State
          = SERVER_STATE_TUNNEL_AUTHORIZE := by
  have e := iteration_channelCreate env s sz pkt hs
  change hookAllows s.VerifyServerFunc (targetHost env pkt) = true at ha
  change env.DialTimeout (targetHost env pkt) = Except.error err at hd
  rw [if_pos ha, hd] at e
  rw [e]
  refine ⟨rfl, ?_, ?_, ?_, hs⟩
  · cases s.VerifyServerFunc <;> rfl
  · cases s.VerifyServerFunc <;> rfl
  · cases s.VerifyServerFunc <;> rfl

/-- C8, at an input: a server without hooks and a backend that cannot be reached. -/
theorem dial_failure_witness :
    (iteration unreachableEnv (serverIn SERVER_STATE_TUNNEL_AUTHORIZE)
        ⟨PKT_TYPE_CHANNEL_CREATE, 36, sampleChannelCreate, none⟩).ret = some "i/o timeout"
      ∧ frames (iteration unreachableEnv (serverIn SERVER_STATE_TUNNEL_AUTHORIZE)
        ⟨PKT_TYPE_CHANNEL_CREATE, 36, sampleChannelCreate, none⟩).events = []
      ∧ (iteration unreachableEnv (serverIn SERVER_STATE_TUNNEL_AUTHORIZE)
        ⟨PKT_TYPE_CHANNEL_CREATE, 36, sampleChannelCreate, none⟩).server.State
        = SERVER_STATE_TUNNEL_AUTHORIZE := by
  have h := dial_failure unreachableEnv (serverIn SERVER_STATE_TUNNEL_AUTHORIZE) 36
    sampleChannelCreate "i/o timeout" rfl rfl rfl
  exact ⟨h.1, h.2.2.1, h.2.2.2.2⟩

/-- C9: for a TUNNEL_CREATE packet in state HANDSHAKE the iteration returns no error,
writes the one frame `tunnelResponse` builds and sets the state to TUNNEL_CREATE
whatever `VerifyTunnelCreate` is (nil, or any function, whatever it returns); two
servers that differ only in this hook show the same observable outcome. -/
theorem tunnel_create_advisory (env : Env) (s : Server) (sz : Nat) (pkt : Bytes)
    (hook hook2 : Option VerifyFunc) (hs : s.State = SERVER_STATE_HANDSHAKE) :
    (iteration env { s with VerifyTunnelCreate := hook }
        ⟨PKT_TYPE_TUNNEL_CREATE, sz, pkt, none⟩).ret = none
      ∧ frames (iteration env { s with VerifyTunnelCreate := hook }
        ⟨PKT_TYPE_TUNNEL_CREATE, sz, pkt, none⟩).events = [tunnelResponse env]
      ∧ (iteration env { s with VerifyTunnelCreate := hook }
        ⟨PKT_TYPE_TUNNEL_CREATE, sz, pkt, none⟩).server.State = SERVER_STATE_TUNNEL_CREATE
      ∧ observable (iteration env { s with VerifyTunnelCreate := hook }
          ⟨PKT_TYPE_TUNNEL_CREATE, sz, pkt, none⟩)
        = observable (iteration env { s with VerifyTunnelCreate := hook2 }
          ⟨PKT_TYPE_TUNNEL_CREATE, sz, pkt, none⟩) := by
  have e := iteration_tunnelCreate env { s with VerifyTunnelCreate := hook } sz pkt hs
  refine ⟨?_, ?_, ?_, ?_⟩
  · rw [e]
  · rw [e]
    cases hook <;> rfl
  · rw [e]
  · exact observable_congr env _ _ _ rfl rfl rfl rfl rfl rfl (fun _ => rfl) (fun _ => rfl)

/-- C9, at an input: the hook denying everything, against no hook at all. -/
theorem tunnel_create_advisory_witness :
    (iteration sampleEnv
        { serverIn SERVER_STATE_HANDSHAKE with VerifyTunnelCreate := some denyAll }
        ⟨PKT_TYPE_TUNNEL_CREATE, 16, sampleTunnelCreate, none⟩).ret = none
      ∧ frames (iteration sampleEnv
        { serverIn SERVER_STATE_HANDSHAKE with VerifyTunnelCreate := some denyAll }
        ⟨PKT_TYPE_TUNNEL_CREATE, 16, sampleTunnelCreate, none⟩).events
        = [tunnelResponse sampleEnv]
      ∧ observable (iteration sampleEnv
          { serverIn SERVER_STATE_HANDSHAKE with VerifyTunnelCreate := some denyAll }
          ⟨PKT_TYPE_TUNNEL_CREATE, 16, sampleTunnelCreate, none⟩)
        = observable (iteration sampleEnv
          { serverIn SERVER_STATE_HANDSHAKE with VerifyTunnelCreate := none }
          ⟨PKT_TYPE_TUNNEL_CREATE, 16, sampleTunnelCreate, none⟩) := by
  have h := tunnel_create_advisory sampleEnv (serverIn SERVER_STATE_HANDSHAKE) 16
    sampleTunnelCreate (some denyAll) none rfl
  exact ⟨h.1, h.2.1, h.2.2.2⟩

/-- C10: for each of the three hooks, an iteration of a server whose hook is nil and an
iteration of the same server with a hook that allows every argument show the same
returned error, the same frames, the same dialed addresses and the same resulting
`State`, `Remote` and `IdleTimeout`, for every state, every result of `readMessage`
and every behaviour of the dialer. -/
theorem absent_hook_is_allow (env : Env) (s : Server) (m : ReadResult) (f : VerifyFunc)
    (hf : ∀ arg, (f arg).1 = true) :
    observable (iteration env { s with VerifyTunnelCreate := none } m)
        = observable (iteration env { s with VerifyTunnelCreate := some f } m)
      ∧ observable (iteration env { s with VerifyTunnelAuthFunc := none } m)
        = observable (iteration env { s with VerifyTunnelAuthFunc := some f } m)
      ∧ observable (iteration env { s with VerifyServerFunc := none } m)
        = observable (iteration env { s with VerifyServerFunc := some f } m) := by
  refine ⟨?_, ?_, ?_⟩
  · exact observable_congr env _ _ m rfl rfl rfl rfl rfl rfl (fun _ => rfl) (fun _ => rfl)
  · exact observable_congr env _ _ m rfl rfl rfl rfl rfl rfl
      (fun a => by simp [hookAllows, hf a]) (fun _ => rfl)
  · exact observable_congr env _ _ m rfl rfl rfl rfl rfl rfl (fun _ => rfl)
      (fun a => by simp [hookAllows, hf a])

/-- C10, at an input: the server hook absent and allowing, on the happy-path
CHANNEL_CREATE packet. -/
theorem absent_hook_is_allow_witness :
    observable (iteration sampleEnv
        { serverIn SERVER_STATE_TUNNEL_AUTHORIZE with VerifyServerFunc := none }
        ⟨PKT_TYPE_CHANNEL_CREATE, 36, sampleChannelCreate, none⟩)
      = observable (iteration sampleEnv
        { serverIn SERVER_STATE_TUNNEL_AUTHORIZE with VerifyServerFunc := some allowAll }
        ⟨PKT_TYPE_CHANNEL_CREATE, 36, sampleChannelCreate, none⟩) :=
  (absent_hook_is_allow sampleEnv (serverIn SERVER_STATE_TUNNEL_AUTHORIZE)
    ⟨PKT_TYPE_CHANNEL_CREATE, 36, sampleChannelCreate, none⟩ allowAll (fun _ => rfl)).2.2

/-! ## Runs of the loop -/

/-- Case analysis on an iteration: a property that holds of the outcome of every branch
holds of the iteration. -/
theorem iteration_elim (env : Env) (s : Server) (m : ReadResult) (P : Outcome → Prop)
    (h_stop : ∀ err, P ⟨s, [Event.readMessage], some err⟩)
    (h_skip : P ⟨s, [Event.readMessage], none⟩)
    (h_handshake : s.State = SERVER_STATE_INITIAL →
      P ⟨{ s with State := SERVER_STATE_HANDSHAKE },
        [Event.readMessage, Event.writePacket
          (handshakeResponse env s (handshakeRequest m.pkt).1 (handshakeRequest m.pkt).2.1)],
        none⟩)
    (h_tunnelCreate : s.State = SERVER_STATE_HANDSHAKE →
      P ⟨{ s with State := SERVER_STATE_TUNNEL_CREATE },
        [Event.readMessage]
          ++ hookCall s.VerifyTunnelCreate (Event.verifyTunnelCreate (tunnelRequest env m.pkt).2)
          ++ [Event.writePacket (tunnelResponse env)], none⟩)
    (h_authOk : s.State = SERVER_STATE_TUNNEL_CREATE →
      P ⟨{ (tunnelAuthResponse env s).2 with State := SERVER_STATE_TUNNEL_AUTHORIZE },
        [Event.readMessage]
          ++ hookCall s.VerifyTunnelAuthFunc
              (Event.verifyTunnelAuth (tunnelAuthRequest env m.pkt))
          ++ [Event.writePacket (tunnelAuthResponse env s).1], none⟩)
    (h_authDenied : s.State = SERVER_STATE_TUNNEL_CREATE →
      P ⟨s, [Event.readMessage, Event.verifyTunnelAuth (tunnelAuthRequest env m.pkt)],
        some "invalid client name"⟩)
    (h_serverDenied : s.State = SERVER_STATE_TUNNEL_AUTHORIZE →
      P ⟨s, [Event.readMessage, Event.verifyServer (targetHost env m.pkt)],
        some "denied by security policy"⟩)
    (h_dialError : s.State = SERVER_STATE_TUNNEL_AUTHORIZE → ∀ err,
      env.DialTimeout (targetHost env m.pkt) = Except.error err →
      P ⟨{ s with Remote := none },
        [Event.readMessage]
          ++ hookCall s.VerifyServerFunc (Event.verifyServer (targetHost env m.pkt))
          ++ [Event.dial (targetHost env m.pkt)], some err⟩)
    (h_dialOk : s.State = SERVER_STATE_TUNNEL_AUTHORIZE → ∀ conn,
      env.DialTimeout (targetHost env m.pkt) = Except.ok conn →
      P ⟨{ s with Remote := some conn, State := SERVER_STATE_CHANNEL_CREATE },
        [Event.readMessage]
          ++ hookCall s.VerifyServerFunc (Event.verifyServer (targetHost env m.pkt))
          ++ [Event.dial (targetHost env m.pkt), Event.writePacket (channelResponse env),
              Event.forward (some conn)], none⟩)
    (h_data : SERVER_STATE_CHANNEL_CREATE ≤ s.State →
      P ⟨{ s with State := SERVER_STATE_OPENED },
        [Event.readMessage, Event.receive m.pkt s.Remote], none⟩)
    (h_close : s.State = SERVER_STATE_OPENED →
      P ⟨{ s with State := SERVER_STATE_CLOSED },
        [Event.readMessage, Event.closeIn, Event.closeOut], none⟩) :
    P (iteration env s m) := by
  obtain ⟨pt, sz, pkt, err⟩ := m
  cases err with
  | some e => rw [iteration_readError]; exact h_stop e
  | none =>
    by_cases h1 : pt = PKT_TYPE_HANDSHAKE_REQUEST
    · subst h1
      by_cases hs : s.State = SERVER_STATE_INITIAL
      · rw [iteration_handshakeRequest env s sz pkt hs]; exact h_handshake hs
      · rw [iteration_mismatch env s _ sz pkt (Or.inl ⟨rfl, hs⟩)]; exact h_stop _
    by_cases h2 : pt = PKT_TYPE_TUNNEL_CREATE
    · subst h2
      by_cases hs : s.State = SERVER_STATE_HANDSHAKE
      · rw [iteration_tunnelCreate env s sz pkt hs]; exact h_tunnelCreate hs
      · rw [iteration_mismatch env s _ sz pkt (Or.inr (Or.inl ⟨rfl, hs⟩))]; exact h_stop _
    by_cases h3 : pt = PKT_TYPE_TUNNEL_AUTH
    · subst h3
      by_cases hs : s.State = SERVER_STATE_TUNNEL_CREATE
      · rw [iteration_tunnelAuth env s sz pkt hs]
        split
        · exact h_authOk hs
        · exact h_authDenied hs
      · rw [iteration_mismatch env s _ sz pkt (Or.inr (Or.inr (Or.inl ⟨rfl, hs⟩)))]
        exact h_stop _
    by_cases h4 : pt = PKT_TYPE_CHANNEL_CREATE
    · subst h4
      by_cases hs : s.State = SERVER_STATE_TUNNEL_AUTHORIZE
      · rw [iteration_channelCreate env s sz pkt hs]
        split
        · cases hd : env.DialTimeout (targetHost env pkt) with
          | error err => exact h_dialError hs err hd
          | ok conn => exact h_dialOk hs conn hd
        · exact h_serverDenied hs
      · rw [iteration_mismatch env s _ sz pkt (Or.inr (Or.inr (Or.inr (Or.inl ⟨rfl, hs⟩))))]
        exact h_stop _
    by_cases h5 : pt = PKT_TYPE_DATA
    · subst h5
      by_cases hs : s.State < SERVER_STATE_CHANNEL_CREATE
      · rw [iteration_mismatch env s _ sz pkt
          (Or.inr (Or.inr (Or.inr (Or.inr (Or.inl ⟨rfl, hs⟩)))))]
        exact h_stop _
      · rw [iteration_data env s sz pkt (not_lt.mp hs)]; exact h_data (not_lt.mp hs)
    by_cases h6 : pt = PKT_TYPE_KEEPALIVE
    · subst h6
      by_cases hs : s.State < SERVER_STATE_CHANNEL_CREATE
      · rw [iteration_mismatch env s _ sz pkt
          (Or.inr (Or.inr (Or.inr (Or.inr (Or.inr (Or.inl ⟨rfl, hs⟩))))))]
        exact h_stop _
      · rw [iteration_keepalive env s sz pkt (not_lt.mp hs)]; exact h_skip
    by_cases h7 : pt = PKT_TYPE_CLOSE_CHANNEL
    · subst h7
      by_cases hs : s.State = SERVER_STATE_OPENED
      · rw [iteration_closeChannel env s sz pkt hs]; exact h_close hs
      · rw [iteration_mismatch env s _ sz pkt
          (Or.inr (Or.inr (Or.inr (Or.inr (Or.inr (Or.inr ⟨rfl, hs⟩))))))]
        exact h_stop _
    rw [iteration_unknown env s pt sz pkt h1 h2 h3 h4 h5 h6 h7]
    exact h_skip

/-! ## The forwarder starts first -/

/-- A longer trace still holds the dial and the start of the forwarder. -/
theorem dialedAndForwarded_append (env : Env) (tr ev : List Event) (r : Option Conn)
    (h : dialedAndForwarded env tr r) : dialedAndForwarded env (tr ++ ev) r := by
  obtain ⟨conn, host, h1, h2, h3, h4⟩ := h
  exact ⟨conn, host, h1, List.mem_append_left _ h2, List.mem_append_left _ h3, h4⟩

/-- Extending an ordered trace: it is enough to look at the calls of `receive` in the
extension. -/
theorem receivesOrdered_append (env : Env) (tr ev : List Event)
    (h : receivesOrdered env tr)
    (hev : ∀ a p r post, ev = a ++ Event.receive p r :: post →
      dialedAndForwarded env (tr ++ a) r) :
    receivesOrdered env (tr ++ ev) := by
  intro q p r post hq
  rcases List.append_eq_append_iff.mp hq with ⟨a, ha, hb⟩ | ⟨c, hc, hd⟩
  · rw [ha]; exact hev a p r post hb
  · cases c with
    | nil =>
      simp at hc hd
      have := hev [] p r post (by simpa using hd.symm)
      simpa [hc] using this
    | cons x c =>
      simp at hd
      obtain ⟨hx, _⟩ := hd
      subst hx
      exact h q p r c hc

/-- Extending an ordered trace by events that hold no call of `receive`. -/
theorem receivesOrdered_append_quiet (env : Env) (tr ev : List Event)
    (h : receivesOrdered env tr) (hev : ∀ p r, Event.receive p r ∉ ev) :
    receivesOrdered env (tr ++ ev) := by
  apply receivesOrdered_append env tr ev h
  intro a p r post ha
  exact absurd (by rw [ha]; simp) (hev p r)

/-- A hook call is no call of `receive`. -/
theorem hookCall_quiet (hook : Option VerifyFunc) (arg : String) (p : Bytes) (r : Option Conn) :
    Event.receive p r ∉ hookCall hook (Event.verifyTunnelCreate arg)
      ∧ Event.receive p r ∉ hookCall hook (Event.verifyTunnelAuth arg)
      ∧ Event.receive p r ∉ hookCall hook (Event.verifyServer arg) := by
  cases hook <;> simp [hookCall]

/-- One iteration keeps the trace ordered, and keeps the fact that from state
CHANNEL_CREATE on the connection is dialed and forwarded. -/
theorem iteration_receivesOrdered (env : Env) (s : Server) (m : ReadResult) (tr : List Event)
    (hInv : SERVER_STATE_CHANNEL_CREATE ≤ s.State → dialedAndForwarded env tr s.Remote)
    (hGood : receivesOrdered env tr) :
    receivesOrdered env (tr ++ (iteration env s m).events)
      ∧ (SERVER_STATE_CHANNEL_CREATE ≤ (iteration env s m).server.State →
          dialedAndForwarded env (tr ++ (iteration env s m).events)
            (iteration env s m).server.Remote) := by
  apply iteration_elim env s m
    (fun o => receivesOrdered env (tr ++ o.events)
      ∧ (SERVER_STATE_CHANNEL_CREATE ≤ o.server.State →
          dialedAndForwarded env (tr ++ o.events) o.server.Remote))
  · intro err
    exact ⟨receivesOrdered_append_quiet env tr _ hGood (by simp),
      fun h => dialedAndForwarded_append env tr _ _ (hInv h)⟩
  · exact ⟨receivesOrdered_append_quiet env tr _ hGood (by simp),
      fun h => dialedAndForwarded_append env tr _ _ (hInv h)⟩
  · intro _
    exact ⟨receivesOrdered_append_quiet env tr _ hGood (by simp),
      fun h => absurd h
        (show ¬ SERVER_STATE_CHANNEL_CREATE ≤ SERVER_STATE_HANDSHAKE by decide)⟩
  · intro _
    refine ⟨receivesOrdered_append_quiet env tr _ hGood ?_, fun h => absurd h
      (show ¬ SERVER_STATE_CHANNEL_CREATE ≤ SERVER_STATE_TUNNEL_CREATE by decide)⟩
    intro p r
    have := (hookCall_quiet s.VerifyTunnelCreate (tunnelRequest env m.pkt).2 p r).1
    simp [this]
  · intro _
    refine ⟨receivesOrdered_append_quiet env tr _ hGood ?_, fun h => absurd h
      (show ¬ SERVER_STATE_CHANNEL_CREATE ≤ SERVER_STATE_TUNNEL_AUTHORIZE by decide)⟩
    intro p r
    have := (hookCall_quiet s.VerifyTunnelAuthFunc (tunnelAuthRequest env m.pkt) p r).2.1
    simp [this]
  · intro _
    exact ⟨receivesOrdered_append_quiet env tr _ hGood (by simp),
      fun h => dialedAndForwarded_append env tr _ _ (hInv h)⟩
  · intro _
    exact ⟨receivesOrdered_append_quiet env tr _ hGood (by simp),
      fun h => dialedAndForwarded_append env tr _ _ (hInv h)⟩
  · intro hs err _
    refine ⟨receivesOrdered_append_quiet env tr _ hGood ?_, fun h => ?_⟩
    · intro p r
      have := (hookCall_quiet s.VerifyServerFunc (targetHost env m.pkt) p r).2.2
      simp [this]
    · exact absurd (hs ▸ h : SERVER_STATE_CHANNEL_CREATE ≤ SERVER_STATE_TUNNEL_AUTHORIZE)
        (by decide)
  · intro _ conn hd
    refine ⟨receivesOrdered_append_quiet env tr _ hGood ?_, fun _ => ?_⟩
    · intro p r
      have := (hookCall_quiet s.VerifyServerFunc (targetHost env m.pkt) p r).2.2
      simp [this]
    · exact ⟨conn, targetHost env m.pkt, rfl, by simp, by simp, hd⟩
  · intro hs
    refine ⟨receivesOrdered_append env tr _ hGood ?_,
      fun _ => dialedAndForwarded_append env tr _ _ (hInv hs)⟩
    intro a p r post ha
    cases a with
    | nil => simp at ha
    | cons x a =>
      cases a with
      | nil =>
        simp at ha
        obtain ⟨_, ⟨_, hr⟩, _⟩ := ha
        rw [← hr]
        exact dialedAndForwarded_append env tr _ _ (hInv hs)
      | cons y a =>
        simp at ha
  · intro hs
    refine ⟨receivesOrdered_append_quiet env tr _ hGood (by simp), fun _ => ?_⟩
    have h4 : SERVER_STATE_CHANNEL_CREATE ≤ s.State := by rw [hs]; decide
    exact dialedAndForwarded_append env tr _ _ (hInv h4)

/-- A run of the loop keeps the trace ordered. -/
theorem Process_receivesOrdered (env : Env) (ms : List ReadResult) :
    ∀ (s : Server) (tr : List Event),
      (SERVER_STATE_CHANNEL_CREATE ≤ s.State → dialedAndForwarded env tr s.Remote) →
      receivesOrdered env tr →
      receivesOrdered env (tr ++ (Process env s ms).events) := by
  induction ms with
  | nil =>
    intro s tr _ hGood
    simpa [Process] using hGood
  | cons m ms ih =>
    intro s tr hInv hGood
    obtain ⟨h1, h2⟩ := iteration_receivesOrdered env s m tr hInv hGood
    cases hr : (iteration env s m).ret with
    | some err =>
      simp only [Process, hr]
      exact h1
    | none =>
      simp only [Process, hr]
      rw [← List.append_assoc]
      exact ih _ _ h2 h1

/-- C11: in every run of `Process` from a server made by `NewServer`, whatever the
script of `readMessage` results, the hooks and the dialer, every call of `receive`
gets a connection that is set; earlier in the trace there is a dial that returned this
connection and the `go forward` statement on it. -/
theorem receive_after_forward (env : Env) (c : RedirConsts) (conf : ServerConf)
    (script : List ReadResult) (pre post : List Event) (p : Bytes) (r : Option Conn)
    (h : (Process env (NewServer c conf) script).events = pre ++ Event.receive p r :: post) :
    ∃ conn host, r = some conn ∧ Event.forward (some conn) ∈ pre ∧ Event.dial host ∈ pre
      ∧ env.DialTimeout host = Except.ok conn := by
  have hrun := Process_receivesOrdered env script (NewServer c conf) []
    (fun h4 => absurd h4
      (show ¬ SERVER_STATE_CHANNEL_CREATE ≤ SERVER_STATE_INITIAL by decide))
    (by intro q p r post hq; simp at hq)
  exact hrun pre p r post (by simpa using h)


/-- C11, at an input: the happy-path session; the payload "hello" reaches `receive`
after the dial of 127.0.0.1:3389 and the start of the forwarder. -/
theorem receive_after_forward_witness :
    (Process sampleEnv (NewServer sampleRedirConsts sampleConf) sampleSession).events
        = [Event.readMessage,
            Event.writePacket [2, 0, 18, 0, 0, 0, 0, 0, 0, 0, 0, 0, 1, 0, 0, 0, 0, 0],
            Event.readMessage,
            Event.writePacket [4, 0, 26, 0, 0, 0, 0, 0, 0, 0, 0, 0, 0, 0, 3, 0, 0, 0, 10, 0,
              0, 0, 1, 0, 0, 0],
            Event.readMessage,
            Event.writePacket [6, 0, 24, 0, 0, 0, 0, 0, 0, 0, 0, 0, 3, 0, 0, 0, 6, 0, 0, 0,
              10, 0, 0, 0],
            Event.readMessage, Event.dial "127.0.0.1:3389",
            Event.writePacket [8, 0, 20, 0, 0, 0, 0, 0, 0, 0, 0, 0, 1, 0, 0, 0, 1, 0, 0, 0],
            Event.forward (some 1), Event.readMessage]
          ++ Event.receive [104, 101, 108, 108, 111] (some 1)
            :: [Event.readMessage, Event.closeIn, Event.closeOut, Event.readMessage]
      ∧ (∃ conn host, some 1 = some conn
          ∧ Event.forward (some conn) ∈ [Event.readMessage,
            Event.writePacket [2, 0, 18, 0, 0, 0, 0, 0, 0, 0, 0, 0, 1, 0, 0, 0, 0, 0],
            Event.readMessage,
            Event.writePacket [4, 0, 26, 0, 0, 0, 0, 0, 0, 0, 0, 0, 0, 0, 3, 0, 0, 0, 10, 0,
              0, 0, 1, 0, 0, 0],
            Event.readMessage,
            Event.writePacket [6, 0, 24, 0, 0, 0, 0, 0, 0, 0, 0, 0, 3, 0, 0, 0, 6, 0, 0, 0,
              10, 0, 0, 0],
            Event.readMessage, Event.dial "127.0.0.1:3389",
            Event.writePacket [8, 0, 20, 0, 0, 0, 0, 0, 0, 0, 0, 0, 1, 0, 0, 0, 1, 0, 0, 0],
            Event.forward (some 1), Event.readMessage]
          ∧ Event.dial host ∈ [Event.readMessage,
            Event.writePacket [2, 0, 18, 0, 0, 0, 0, 0, 0, 0, 0, 0, 1, 0, 0, 0, 0, 0],
            Event.readMessage,
            Event.writePacket [4, 0, 26, 0, 0, 0, 0, 0, 0, 0, 0, 0, 0, 0, 3, 0, 0, 0, 10, 0,
              0, 0, 1, 0, 0, 0],
            Event.readMessage,
            Event.writePacket [6, 0, 24, 0, 0, 0, 0, 0, 0, 0, 0, 0, 3, 0, 0, 0, 6, 0, 0, 0,
              10, 0, 0, 0],
            Event.readMessage, Event.dial "127.0.0.1:3389",
            Event.writePacket [8, 0, 20, 0, 0, 0, 0, 0, 0, 0, 0, 0, 1, 0, 0, 0, 1, 0, 0, 0],
            Event.forward (some 1), Event.readMessage]
          ∧ sampleEnv.DialTimeout host = Except.ok conn) :=
  have h : (Process sampleEnv (NewServer sampleRedirConsts sampleConf) sampleSession).events
      = [Event.readMessage,
          Event.writePacket [2, 0, 18, 0, 0, 0, 0, 0, 0, 0, 0, 0, 1, 0, 0, 0, 0, 0],
          Event.readMessage,
          Event.writePacket [4, 0, 26, 0, 0, 0, 0, 0, 0, 0, 0, 0, 0, 0, 3, 0, 0, 0, 10, 0,
            0, 0, 1, 0, 0, 0],
          Event.readMessage,
          Event.writePacket [6, 0, 24, 0, 0, 0, 0, 0, 0, 0, 0, 0, 3, 0, 0, 0, 6, 0, 0, 0,
            10, 0, 0, 0],
          Event.readMessage, Event.dial "127.0.0.1:3389",
          Event.writePacket [8, 0, 20, 0, 0, 0, 0, 0, 0, 0, 0, 0, 1, 0, 0, 0, 1, 0, 0, 0],
          Event.forward (some 1), Event.readMessage]
        ++ Event.receive [104, 101, 108, 108, 111] (some 1)
          :: [Event.readMessage, Event.closeIn, Event.closeOut, Event.readMessage] := by
    decide
  ⟨h, receive_after_forward sampleEnv sampleRedirConsts sampleConf sampleSession _ _ _ _ h⟩

/-! ## Redirect flags -/

/-- Zero is neutral for the bitwise OR of integers. -/
theorem zero_lor (x : Int) : Int.lor 0 x = x := by
  cases x with
  | ofNat n =>
    show ((0 ||| n : ℕ) : ℤ) = (n : ℤ)
    simp
  | negSucc n =>
    show Int.negSucc (Nat.ldiff n 0) = Int.negSucc n
    simp [Nat.ldiff]

/-- C12: `makeRedirectFlags` returns DISABLE_ALL when `DisableAll` is set, whatever the
other fields; ENABLE_ALL when `DisableAll` is clear and `EnableAll` is set; and otherwise
the bitwise OR of the disable flags of exactly the features whose field is false, which
is 0 when all five fields are true and DISABLE_PORT | DISABLE_PRINTER for the policy with
only port and printer false. The values of the seven constants are arbitrary. -/
theorem makeRedirectFlags_spec (c : RedirConsts) (flags : RedirectFlags) :
    (flags.DisableAll = true →
        makeRedirectFlags c flags = c.HTTP_TUNNEL_REDIR_DISABLE_ALL)
      ∧ (flags.DisableAll = false → flags.EnableAll = true →
        makeRedirectFlags c flags = c.HTTP_TUNNEL_REDIR_ENABLE_ALL)
      ∧ (flags.DisableAll = false → flags.EnableAll = false →
        makeRedirectFlags c flags = orOfDisabled c flags)
      ∧ (flags.DisableAll = false → flags.EnableAll = false → flags.Port = true →
        flags.Clipboard = true → flags.Drive = true → flags.Pnp = true →
        flags.Printer = true → makeRedirectFlags c flags = 0)
      ∧ (flags.DisableAll = false → flags.EnableAll = false → flags.Port = false →
        flags.Clipboard = true → flags.Drive = true → flags.Pnp = true →
        flags.Printer = false →
        makeRedirectFlags c flags
          = Int.lor c.HTTP_TUNNEL_REDIR_DISABLE_PORT c.HTTP_TUNNEL_REDIR_DISABLE_PRINTER) := by
  obtain ⟨da, ea, port, clip, drive, pnp, printer⟩ := flags
  refine ⟨?_, ?_, ?_, ?_, ?_⟩
  · intro h; simp only at h; subst h; rfl
  · intro h1 h2; simp only at h1 h2; subst h1; subst h2; rfl
  · intro h1 h2; simp only at h1 h2; subst h1; subst h2
    cases port <;> cases clip <;> cases drive <;> cases pnp <;> cases printer <;> rfl
  · intro h1 h2 h3 h4 h5 h6 h7; simp only at h1 h2 h3 h4 h5 h6 h7
    subst h1 h2 h3 h4 h5 h6 h7; rfl
  · intro h1 h2 h3 h4 h5 h6 h7; simp only at h1 h2 h3 h4 h5 h6 h7
    subst h1 h2 h3 h4 h5 h6 h7
    show Int.lor (Int.lor 0 _) _ = _
    rw [zero_lor]

/-- C12, at an input: the policy with only port and printer false, and the same policy
with `DisableAll` and `EnableAll` both set. -/
theorem makeRedirectFlags_spec_witness :
    makeRedirectFlags sampleRedirConsts sampleRedirectFlags = Int.lor 0x4 0x2
      ∧ makeRedirectFlags sampleRedirConsts
          { sampleRedirectFlags with DisableAll := true, EnableAll := true } = 0x40000000 :=
  ⟨(makeRedirectFlags_spec sampleRedirConsts sampleRedirectFlags).2.2.2.2
      rfl rfl rfl rfl rfl rfl rfl,
   (makeRedirectFlags_spec sampleRedirConsts
      { sampleRedirectFlags with DisableAll := true, EnableAll := true }).1 rfl⟩

/-! ## Layout of the responses -/

/-- Decoding the four bytes written for a `uint32` gives the value modulo 2^32. -/
theorem leValue_putUint32 (x : Nat) : leValue (putUint32 x) = x % 4294967296 := by
  simp only [leValue, putUint32]
  omega

/-- The conversion `uint32(x)` keeps a value that fits 32 bits. -/
theorem toUint32_of_range (x : Int) (h0 : 0 ≤ x) (h1 : x < 4294967296) :
    ((toUint32 x : Nat) : Int) = x := by
  unfold toUint32
  omega

/-- The conversion `uint32(x)` yields a value below 2^32. -/
theorem toUint32_lt (x : Int) : toUint32 x < 4294967296 := by
  unfold toUint32
  omega

/-- The frame `tunnelAuthResponse` builds, with the payload written out. -/
theorem tunnelAuthResponse_frame (env : Env) (s : Server) :
    (tunnelAuthResponse env s).1
      = env.createPacket PKT_TYPE_TUNNEL_AUTH_RESPONSE
          ([0, 0, 0, 0, 3, 0, 0, 0] ++ putUint32 (toUint32 s.RedirectFlags)
            ++ putUint32 (toUint32 (if s.IdleTimeout < 0 then 0 else s.IdleTimeout))) := by
  unfold tunnelAuthResponse
  by_cases h : s.IdleTimeout < 0 <;>
    simp [h, putUint32, putUint16, HTTP_TUNNEL_AUTH_RESPONSE_FIELD_REDIR_FLAGS,
      HTTP_TUNNEL_AUTH_RESPONSE_FIELD_IDLE_TIMEOUT]

/-- Calling `tunnelAuthResponse` a second time changes nothing. -/
theorem tunnelAuthResponse_idem (env : Env) (s : Server) :
    tunnelAuthResponse env (tunnelAuthResponse env s).2 = tunnelAuthResponse env s := by
  unfold tunnelAuthResponse
  by_cases h : s.IdleTimeout < 0 <;> simp [h]

/-- C13, amended: the frame `tunnelAuthResponse` builds is `createPacket` of a 16 byte
payload whose last four bytes decode (u32 little-endian) to 0 when `IdleTimeout` is
negative and to `IdleTimeout` itself when it lies in 0 .. 2^32 - 1; for any value that
is not negative they decode to `IdleTimeout` modulo 2^32. Building the response a second
time yields the same frame. -/
theorem idle_timeout_clamp (env : Env) (s : Server) :
    ∃ p : Bytes,
      (tunnelAuthResponse env s).1 = env.createPacket PKT_TYPE_TUNNEL_AUTH_RESPONSE p
      ∧ p = [0, 0, 0, 0, 3, 0, 0, 0] ++ putUint32 (toUint32 s.RedirectFlags)
            ++ putUint32 (toUint32 (if s.IdleTimeout < 0 then 0 else s.IdleTimeout))
      ∧ p.length = 16
      ∧ (s.IdleTimeout < 0 → leValue (p.drop 12) = 0)
      ∧ (0 ≤ s.IdleTimeout → s.IdleTimeout < 4294967296 →
          ((leValue (p.drop 12) : Nat) : Int) = s.IdleTimeout)
      ∧ (0 ≤ s.IdleTimeout →
          ((leValue (p.drop 12) : Nat) : Int) = s.IdleTimeout % 4294967296)
      ∧ (tunnelAuthResponse env (tunnelAuthResponse env s).2).1
          = (tunnelAuthResponse env s).1 := by
  refine ⟨_, tunnelAuthResponse_frame env s, rfl, by simp [putUint32], ?_, ?_, ?_, ?_⟩
  · intro h
    have hd : List.drop 12 ([0, 0, 0, 0, 3, 0, 0, 0] ++ putUint32 (toUint32 s.RedirectFlags)
        ++ putUint32 (toUint32 (if s.IdleTimeout < 0 then 0 else s.IdleTimeout)))
        = putUint32 (toUint32 (if s.IdleTimeout < 0 then 0 else s.IdleTimeout)) := by
      simp [putUint32]
    rw [hd, leValue_putUint32, if_pos h]
    rfl
  · intro h0 h1
    have hd : List.drop 12 ([0, 0, 0, 0, 3, 0, 0, 0] ++ putUint32 (toUint32 s.RedirectFlags)
        ++ putUint32 (toUint32 (if s.IdleTimeout < 0 then 0 else s.IdleTimeout)))
        = putUint32 (toUint32 (if s.IdleTimeout < 0 then 0 else s.IdleTimeout)) := by
      simp [putUint32]
    rw [hd, leValue_putUint32, if_neg (not_lt.mpr h0),
      Nat.mod_eq_of_lt (toUint32_lt _)]
    exact toUint32_of_range _ h0 h1
  · intro h0
    have hd : List.drop 12 ([0, 0, 0, 0, 3, 0, 0, 0] ++ putUint32 (toUint32 s.RedirectFlags)
        ++ putUint32 (toUint32 (if s.IdleTimeout < 0 then 0 else s.IdleTimeout)))
        = putUint32 (toUint32 (if s.IdleTimeout < 0 then 0 else s.IdleTimeout)) := by
      simp [putUint32]
    rw [hd, leValue_putUint32, if_neg (not_lt.mpr h0),
      Nat.mod_eq_of_lt (toUint32_lt _)]
    unfold toUint32
    omega
  · rw [tunnelAuthResponse_idem]


/-- C13, as stated, fails: `IdleTimeout` is a Go `int`, and for the value 2^32 (which a
64-bit `int` holds) the conversion `uint32(s.IdleTimeout)` writes four zero bytes, so
the field decodes to 0 and not to the timeout itself. -/
theorem idle_timeout_counterexample :
    (tunnelAuthResponse sampleEnv
        { serverIn SERVER_STATE_TUNNEL_CREATE with IdleTimeout := 4294967296 }).1
      = sampleEnv.createPacket PKT_TYPE_TUNNEL_AUTH_RESPONSE
          [0, 0, 0, 0, 3, 0, 0, 0, 6, 0, 0, 0, 0, 0, 0, 0]
      ∧ leValue (List.drop 12 [0, 0, 0, 0, 3, 0, 0, 0, 6, 0, 0, 0, 0, 0, 0, 0]) = 0
      ∧ ((leValue (List.drop 12 [0, 0, 0, 0, 3, 0, 0, 0, 6, 0, 0, 0, 0, 0, 0, 0]) : Nat) : Int)
          ≠ ({ serverIn SERVER_STATE_TUNNEL_CREATE with
                IdleTimeout := 4294967296 } : Server).IdleTimeout := by
  decide

/-- C13, amended, at an input: the timeouts -5 and 10. -/
theorem idle_timeout_clamp_witness :
    (tunnelAuthResponse sampleEnv
        { serverIn SERVER_STATE_TUNNEL_CREATE with IdleTimeout := -5 }).1
      = sampleEnv.createPacket PKT_TYPE_TUNNEL_AUTH_RESPONSE
          [0, 0, 0, 0, 3, 0, 0, 0, 6, 0, 0, 0, 0, 0, 0, 0]
      ∧ leValue (List.drop 12 [0, 0, 0, 0, 3, 0, 0, 0, 6, 0, 0, 0, 0, 0, 0, 0]) = 0
      ∧ (tunnelAuthResponse sampleEnv (serverIn SERVER_STATE_TUNNEL_CREATE)).1
      = sampleEnv.createPacket PKT_TYPE_TUNNEL_AUTH_RESPONSE
          [0, 0, 0, 0, 3, 0, 0, 0, 6, 0, 0, 0, 10, 0, 0, 0]
      ∧ ((leValue (List.drop 12 [0, 0, 0, 0, 3, 0, 0, 0, 6, 0, 0, 0, 10, 0, 0, 0]) : Nat) : Int)
          = (serverIn SERVER_STATE_TUNNEL_CREATE).IdleTimeout := by
  obtain ⟨p, h1, h2, _, h4, _, _, _⟩ := idle_timeout_clamp sampleEnv
    { serverIn SERVER_STATE_TUNNEL_CREATE with IdleTimeout := -5 }
  obtain ⟨q, k1, k2, _, _, k5, _, _⟩ := idle_timeout_clamp sampleEnv
    (serverIn SERVER_STATE_TUNNEL_CREATE)
  have hp : p = [0, 0, 0, 0, 3, 0, 0, 0, 6, 0, 0, 0, 0, 0, 0, 0] := h2.trans (by decide)
  have hq : q = [0, 0, 0, 0, 3, 0, 0, 0, 6, 0, 0, 0, 10, 0, 0, 0] := k2.trans (by decide)
  subst hp
  subst hq
  exact ⟨h1, h4 (by decide), k1, k5 (by decide) (by decide)⟩

/-- Decoding the four bytes written for a value that fits 32 bits gives the value. -/
theorem leValue_putUint32_of_range (x : Int) (h0 : 0 ≤ x) (h1 : x < 4294967296) :
    ((leValue (putUint32 x.toNat) : Nat) : Int) = x := by
  rw [leValue_putUint32]
  omega

/-- C14: for a server whose `RedirectFlags` and `IdleTimeout` lie in 0 .. 2^32 - 1,
`tunnelAuthResponse` returns `createPacket(PKT_TYPE_TUNNEL_AUTH_RESPONSE, p)` where `p`
has exactly 16 bytes: the error code 0 (u32), the fields present 0x0003 (u16), the
reserved 0 (u16), then `RedirectFlags` (u32) and then `IdleTimeout` (u32), all
little-endian; and the `RedirectFlags` of a server made by `NewServer` is
`makeRedirectFlags` of the configured policy. -/
theorem tunnelAuthResponse_layout (env : Env) (s : Server) (c : RedirConsts)
    (conf : ServerConf)
    (hr0 : 0 ≤ s.RedirectFlags) (hr1 : s.RedirectFlags < 4294967296)
    (hi0 : 0 ≤ s.IdleTimeout) (hi1 : s.IdleTimeout < 4294967296) :
    (∃ p : Bytes,
      (tunnelAuthResponse env s).1 = env.createPacket PKT_TYPE_TUNNEL_AUTH_RESPONSE p
      ∧ p = [0, 0, 0, 0, 3, 0, 0, 0] ++ putUint32 s.RedirectFlags.toNat
            ++ putUint32 s.IdleTimeout.toNat
      ∧ p.length = 16
      ∧ (∀ b ∈ p, b < 256)
      ∧ leValue (p.take 4) = 0
      ∧ leValue ((p.drop 4).take 2) = 0x0003
      ∧ leValue ((p.drop 6).take 2) = 0
      ∧ ((leValue ((p.drop 8).take 4) : Nat) : Int) = s.RedirectFlags
      ∧ ((leValue (p.drop 12) : Nat) : Int) = s.IdleTimeout)
    ∧ (NewServer c conf).RedirectFlags = makeRedirectFlags c conf.RedirectFlags := by
  refine ⟨⟨_, ?_, rfl, by simp [putUint32], ?_, ?_, ?_, ?_, ?_, ?_⟩, rfl⟩
  · rw [tunnelAuthResponse_frame, if_neg (not_lt.mpr hi0)]
    have e1 : toUint32 s.RedirectFlags = s.RedirectFlags.toNat := by unfold toUint32; omega
    have e2 : toUint32 s.IdleTimeout = s.IdleTimeout.toNat := by unfold toUint32; omega
    rw [e1, e2]
  · intro b hb
    simp only [putUint32, List.cons_append, List.nil_append, List.mem_cons,
      List.mem_singleton, List.not_mem_nil, or_false] at hb
    omega
  · simp [putUint32, leValue]
  · simp [putUint32, leValue]
  · simp [putUint32, leValue]
  · have hd : List.take 4 (List.drop 8 ([0, 0, 0, 0, 3, 0, 0, 0]
        ++ putUint32 s.RedirectFlags.toNat ++ putUint32 s.IdleTimeout.toNat))
        = putUint32 s.RedirectFlags.toNat := by simp [putUint32]
    rw [hd]
    exact leValue_putUint32_of_range _ hr0 hr1
  · have hd : List.drop 12 ([0, 0, 0, 0, 3, 0, 0, 0]
        ++ putUint32 s.RedirectFlags.toNat ++ putUint32 s.IdleTimeout.toNat)
        = putUint32 s.IdleTimeout.toNat := by simp [putUint32]
    rw [hd]
    exact leValue_putUint32_of_range _ hi0 hi1

/-- C15: `handshakeResponse(major, minor)` is `createPacket(PKT_TYPE_HANDSHAKE_RESPONSE, p)`
with `p` the ten bytes 0 0 0 0, major, minor, 0 0, c, 0 where c is 0x2 if `SmartCardAuth`
or-ed with 0x1 if `TokenAuth` (0x3 with both, 0x0 with neither); and in `Process` a
HANDSHAKE_REQUEST whose payload starts with the bytes `major`, `minor` is answered, in
state INITIAL, with exactly `handshakeResponse(major, minor)`, whatever follows the two
bytes (client version and extended auth included). -/
theorem handshakeResponse_layout (env : Env) (s : Server) (major minor : Nat) :
    handshakeResponse env s major minor
        = env.createPacket PKT_TYPE_HANDSHAKE_RESPONSE
            [0, 0, 0, 0, major, minor, 0, 0,
              (if s.SmartCardAuth then 0x2 else 0) ||| (if s.TokenAuth then 0x1 else 0), 0]
      ∧ (s.SmartCardAuth = true → s.TokenAuth = true →
          (if s.SmartCardAuth then 0x2 else 0) ||| (if s.TokenAuth then 0x1 else 0) = 0x3)
      ∧ (s.SmartCardAuth = false → s.TokenAuth = false →
          (if s.SmartCardAuth then 0x2 else 0) ||| (if s.TokenAuth then 0x1 else 0) = 0x0)
      ∧ (∀ (sz : Nat) (rest : Bytes), s.State = SERVER_STATE_INITIAL →
          frames (iteration env s
              ⟨PKT_TYPE_HANDSHAKE_REQUEST, sz, major :: minor :: rest, none⟩).events
            = [handshakeResponse env s major minor]) := by
  refine ⟨?_, ?_, ?_, ?_⟩
  · unfold handshakeResponse
    cases s.SmartCardAuth <;> cases s.TokenAuth <;>
      simp [putUint32, putUint16, HTTP_EXTENDED_AUTH_SC, HTTP_EXTENDED_AUTH_PAA]
  · intro h1 h2; rw [h1, h2]; rfl
  · intro h1 h2; rw [h1, h2]; rfl
  · intro sz rest hs
    rw [iteration_handshakeRequest env s sz _ hs]
    simp [frames, handshakeRequest, readUint, leValue]

/-- C16: `tunnelResponse` and `channelResponse` read nothing of the server (the embedding
drops the unused receiver) and build `createPacket(PKT_TYPE_TUNNEL_RESPONSE, p)` with `p`
the 18 bytes 00 00 | 00 00 00 00 | 03 00 | 00 00 | 0A 00 00 00 | 01 00 00 00, and
`createPacket(PKT_TYPE_CHANNEL_RESPONSE, q)` with `q` the 12 bytes
00 00 00 00 | 01 00 | 00 00 | 01 00 00 00. -/
theorem response_constants (env : Env) :
    tunnelResponse env
        = env.createPacket PKT_TYPE_TUNNEL_RESPONSE
            [0x00, 0x00, 0x00, 0x00, 0x00, 0x00, 0x03, 0x00, 0x00, 0x00,
             0x0A, 0x00, 0x00, 0x00, 0x01, 0x00, 0x00, 0x00]
      ∧ channelResponse env
        = env.createPacket PKT_TYPE_CHANNEL_RESPONSE
            [0x00, 0x00, 0x00, 0x00, 0x01, 0x00, 0x00, 0x00, 0x01, 0x00, 0x00, 0x00] := by
  constructor
  · simp [tunnelResponse, putUint16, putUint32, HTTP_TUNNEL_RESPONSE_FIELD_TUNNEL_ID,
      HTTP_TUNNEL_RESPONSE_FIELD_CAPS, HTTP_CAPABILITY_IDLE_TIMEOUT]
  · simp [channelResponse, putUint16, putUint32, HTTP_CHANNEL_RESPONSE_FIELD_CHANNELID]


/-- C14, at an input: the sample server, with redirect flags 6 and a timeout of 10. -/
theorem tunnelAuthResponse_layout_witness :
    (tunnelAuthResponse sampleEnv (serverIn SERVER_STATE_TUNNEL_CREATE)).1
      = sampleEnv.createPacket PKT_TYPE_TUNNEL_AUTH_RESPONSE
          [0, 0, 0, 0, 3, 0, 0, 0, 6, 0, 0, 0, 10, 0, 0, 0]
      ∧ (NewServer sampleRedirConsts sampleConf).RedirectFlags
          = makeRedirectFlags sampleRedirConsts sampleConf.RedirectFlags := by
  obtain ⟨⟨p, h1, h2, _⟩, h3⟩ := tunnelAuthResponse_layout sampleEnv
    (serverIn SERVER_STATE_TUNNEL_CREATE) sampleRedirConsts sampleConf
    (by decide) (by decide) (by decide) (by decide)
  have hp : p = [0, 0, 0, 0, 3, 0, 0, 0, 6, 0, 0, 0, 10, 0, 0, 0] := h2.trans (by decide)
  subst hp
  exact ⟨h1, h3⟩

/-- C15, at an input: the happy-path HANDSHAKE_REQUEST in state INITIAL, and the
capabilities of a server with both flags set and with none. -/
theorem handshakeResponse_layout_witness :
    frames (iteration sampleEnv (serverIn SERVER_STATE_INITIAL)
        ⟨PKT_TYPE_HANDSHAKE_REQUEST, 14, 1 :: 0 :: [0, 0, 3, 0], none⟩).events
        = [handshakeResponse sampleEnv (serverIn SERVER_STATE_INITIAL) 1 0]
      ∧ handshakeResponse sampleEnv
          { serverIn SERVER_STATE_INITIAL with SmartCardAuth := true, TokenAuth := true } 1 0
        = sampleEnv.createPacket PKT_TYPE_HANDSHAKE_RESPONSE [0, 0, 0, 0, 1, 0, 0, 0, 3, 0]
      ∧ handshakeResponse sampleEnv (serverIn SERVER_STATE_INITIAL) 1 0
        = sampleEnv.createPacket PKT_TYPE_HANDSHAKE_RESPONSE [0, 0, 0, 0, 1, 0, 0, 0, 0, 0] :=
  ⟨(handshakeResponse_layout sampleEnv (serverIn SERVER_STATE_INITIAL) 1 0).2.2.2 14
      [0, 0, 3, 0] rfl,
   (handshakeResponse_layout sampleEnv
      { serverIn SERVER_STATE_INITIAL with SmartCardAuth := true, TokenAuth := true } 1 0).1,
   (handshakeResponse_layout sampleEnv (serverIn SERVER_STATE_INITIAL) 1 0).1⟩

/-! ## Decoding the requests -/

/-- C17, as stated, fails: with `fields_present` = 3 the PAA_COOKIE bit is set, the payload
declares a cookie of 2 bytes that decodes to "A", and `tunnelRequest` returns the empty
cookie, because it tests `fields == HTTP_TUNNEL_PACKET_FIELD_PAA_COOKIE`. -/
theorem paa_cookie_counterexample :
    leValue ((otherBitsTunnelCreate.drop 4).take 2) = 3
      ∧ 3 &&& HTTP_TUNNEL_PACKET_FIELD_PAA_COOKIE = HTTP_TUNNEL_PACKET_FIELD_PAA_COOKIE
      ∧ leValue ((otherBitsTunnelCreate.drop 8).take 2) = 2
      ∧ (sampleEnv.DecodeUTF16 ((otherBitsTunnelCreate.drop 10).take 2)).1 = "A"
      ∧ (tunnelRequest sampleEnv otherBitsTunnelCreate).2 = ""
      ∧ (tunnelRequest sampleEnv otherBitsTunnelCreate).2
          ≠ (sampleEnv.DecodeUTF16 ((otherBitsTunnelCreate.drop 10).take 2)).1 := by
  decide

/-- C17, amended: on a payload laid out as caps (u32), fields_present (u16), two reserved
bytes, size (u16) and that many cookie bytes (anything may follow), `tunnelRequest`
returns the caps as the little-endian value of the first four bytes; when
`fields_present` equals PAA_COOKIE (0x1) it returns `DecodeUTF16` of exactly the cookie
bytes, and for every other value of `fields_present` the empty cookie. -/
theorem tunnelRequest_cookie (env : Env) (c0 c1 c2 c3 f0 f1 r0 r1 lo hi : Nat)
    (cookie rest : Bytes) (hlen : cookie.length = lo + 256 * hi) :
    (tunnelRequest env ([c0, c1, c2, c3, f0, f1, r0, r1, lo, hi] ++ cookie ++ rest)).1
        = c0 + 256 * (c1 + 256 * (c2 + 256 * c3))
      ∧ (f0 + 256 * f1 = HTTP_TUNNEL_PACKET_FIELD_PAA_COOKIE →
          (tunnelRequest env ([c0, c1, c2, c3, f0, f1, r0, r1, lo, hi] ++ cookie ++ rest)).2
            = (env.DecodeUTF16 cookie).1)
      ∧ (f0 + 256 * f1 ≠ HTTP_TUNNEL_PACKET_FIELD_PAA_COOKIE →
          (tunnelRequest env ([c0, c1, c2, c3, f0, f1, r0, r1, lo, hi] ++ cookie ++ rest)).2
            = "") := by
  refine ⟨?_, ?_, ?_⟩
  · by_cases hf : f0 + 256 * f1 = HTTP_TUNNEL_PACKET_FIELD_PAA_COOKIE <;>
      simp [tunnelRequest, readUint, leValue, hf]
  · intro hf
    simp [tunnelRequest, readUint, readInto, leValue, hf, hlen.symm]
  · intro hf
    simp [tunnelRequest, readUint, leValue, hf]

/-- C17, amended, at an input: `fields_present` = 1 with the cookie "A", and
`fields_present` = 3 with the same cookie. -/
theorem tunnelRequest_cookie_witness :
    (tunnelRequest sampleEnv [0, 0, 0, 0, 1, 0, 0, 0, 2, 0, 65, 0]).2
        = (sampleEnv.DecodeUTF16 [65, 0]).1
      ∧ (tunnelRequest sampleEnv otherBitsTunnelCreate).2 = "" :=
  ⟨(tunnelRequest_cookie sampleEnv 0 0 0 0 1 0 0 0 2 0 [65, 0] [] rfl).2.1 rfl,
   (tunnelRequest_cookie sampleEnv 0 0 0 0 3 0 0 0 2 0 [65, 0] [] rfl).2.2 (by decide)⟩

/-- On a payload that holds the declared number of name bytes `channelRequest` decodes
exactly these bytes and the port at offset 2. -/
theorem channelRequest_wellFormed (env : Env) (rc alt p0 p1 q0 q1 n0 n1 : Nat)
    (name rest : Bytes) (hlen : name.length = n0 + 256 * n1) :
    channelRequest env ([rc, alt, p0, p1, q0, q1, n0, n1] ++ name ++ rest)
      = ((env.DecodeUTF16 name).1, p0 + 256 * p1) := by
  simp [channelRequest, readUint, readSlice, leValue, hlen.symm]

/-- C18: on a payload of resources count, alternative, port (u16), protocol (u16), name
size (u16), that many name bytes and anything after them, `channelRequest` returns the
port at offset 2 and `DecodeUTF16` of exactly the name bytes; the result is the same
whatever the resources count, the alternative, the protocol and the bytes after the
name are; and in state TUNNEL_AUTHORIZE the address `Process` gives to the server hook
and, when allowed, to the dialer is `JoinHostPort(server, Itoa(port))`. -/
theorem channelRequest_decode (env : Env) (rc alt p0 p1 q0 q1 n0 n1 : Nat)
    (name rest : Bytes) (hlen : name.length = n0 + 256 * n1) :
    channelRequest env ([rc, alt, p0, p1, q0, q1, n0, n1] ++ name ++ rest)
        = ((env.DecodeUTF16 name).1, p0 + 256 * p1)
      ∧ (∀ (rc2 alt2 q2 q3 : Nat) (rest2 : Bytes),
          channelRequest env ([rc2, alt2, p0, p1, q2, q3, n0, n1] ++ name ++ rest2)
            = channelRequest env ([rc, alt, p0, p1, q0, q1, n0, n1] ++ name ++ rest))
      ∧ (∀ (s : Server) (sz : Nat), s.State = SERVER_STATE_TUNNEL_AUTHORIZE →
          hookCalls (iteration env s ⟨PKT_TYPE_CHANNEL_CREATE, sz,
              [rc, alt, p0, p1, q0, q1, n0, n1] ++ name ++ rest, none⟩).events
            = hookCall s.VerifyServerFunc (Event.verifyServer
                (env.JoinHostPort (env.DecodeUTF16 name).1 (Itoa (p0 + 256 * p1))))
          ∧ (hookAllows s.VerifyServerFunc
                (env.JoinHostPort (env.DecodeUTF16 name).1 (Itoa (p0 + 256 * p1))) = true →
              dials (iteration env s ⟨PKT_TYPE_CHANNEL_CREATE, sz,
                  [rc, alt, p0, p1, q0, q1, n0, n1] ++ name ++ rest, none⟩).events
                = [env.JoinHostPort (env.DecodeUTF16 name).1 (Itoa (p0 + 256 * p1))])) := by
  have e := channelRequest_wellFormed env rc alt p0 p1 q0 q1 n0 n1 name rest hlen
  refine ⟨e, ?_, ?_⟩
  · intro rc2 alt2 q2 q3 rest2
    rw [e, channelRequest_wellFormed env rc2 alt2 p0 p1 q2 q3 n0 n1 name rest2 hlen]
  · intro s sz hs
    have ht : targetHost env ([rc, alt, p0, p1, q0, q1, n0, n1] ++ name ++ rest)
        = env.JoinHostPort (env.DecodeUTF16 name).1 (Itoa (p0 + 256 * p1)) := by
      unfold targetHost
      rw [e]
    rw [iteration_channelCreate env s sz _ hs, ht]
    constructor
    · split
      · cases env.DialTimeout _ <;> cases s.VerifyServerFunc <;> rfl
      · rename_i hden
        cases hf : s.VerifyServerFunc with
        | none => simp [hookAllows, hf] at hden
        | some f => rfl
    · intro ha
      rw [if_pos ha]
      cases env.DialTimeout _ <;> cases s.VerifyServerFunc <;> rfl


/-- C18, at an input: the happy-path CHANNEL_CREATE payload, port 3389. -/
theorem channelRequest_decode_witness :
    channelRequest sampleEnv sampleChannelCreate
      = ((sampleEnv.DecodeUTF16
            [49, 0, 50, 0, 55, 0, 46, 0, 48, 0, 46, 0, 48, 0, 46, 0, 49, 0, 0, 0]).1,
          61 + 256 * 13) :=
  (channelRequest_decode sampleEnv 1 0 61 13 3 0 20 0
    [49, 0, 50, 0, 55, 0, 46, 0, 48, 0, 46, 0, 48, 0, 46, 0, 49, 0, 0, 0] [] rfl).1

/-- C19, as stated, fails: an empty HANDSHAKE_REQUEST payload in state INITIAL makes the
iteration return no error, write a HANDSHAKE_RESPONSE that echoes major 0 and minor 0,
and advance the state to HANDSHAKE. -/
theorem truncated_payload_counterexample :
    (serverIn SERVER_STATE_INITIAL).State = SERVER_STATE_INITIAL
      ∧ (iteration sampleEnv (serverIn SERVER_STATE_INITIAL)
          ⟨PKT_TYPE_HANDSHAKE_REQUEST, 8, [], none⟩).ret = none
      ∧ frames (iteration sampleEnv (serverIn SERVER_STATE_INITIAL)
          ⟨PKT_TYPE_HANDSHAKE_REQUEST, 8, [], none⟩).events
          = [[2, 0, 18, 0, 0, 0, 0, 0, 0, 0, 0, 0, 0, 0, 0, 0, 0, 0]]
      ∧ (iteration sampleEnv (serverIn SERVER_STATE_INITIAL)
          ⟨PKT_TYPE_HANDSHAKE_REQUEST, 8, [], none⟩).server.State = SERVER_STATE_HANDSHAKE := by
  decide

/-- A client name whose declared size exceeds the bytes that follow is decoded from that
many zero bytes. -/
theorem tunnelAuthRequest_truncated (env : Env) (lo hi : Nat) (tail : Bytes)
    (h : tail.length < lo + 256 * hi) :
    tunnelAuthRequest env (lo :: hi :: tail)
      = (env.DecodeUTF16 (List.replicate (lo + 256 * hi) 0)).1 := by
  have h2 : ¬ (lo + 256 * hi ≤ tail.length) := by omega
  simp [tunnelAuthRequest, readUint, readSlice, leValue, h2]

/-- A server name whose declared size exceeds the bytes that follow is decoded from that
many zero bytes; the port is read as usual. -/
theorem channelRequest_truncated (env : Env) (rc alt p0 p1 q0 q1 n0 n1 : Nat) (tail : Bytes)
    (h : tail.length < n0 + 256 * n1) :
    channelRequest env ([rc, alt, p0, p1, q0, q1, n0, n1] ++ tail)
      = ((env.DecodeUTF16 (List.replicate (n0 + 256 * n1) 0)).1, p0 + 256 * p1) := by
  have h2 : ¬ (n0 + 256 * n1 ≤ tail.length) := by omega
  simp [channelRequest, readUint, readSlice, leValue, h2]

/-- C19, amended: a payload that is too short is not detected, the decoders leave what
they cannot read at zero and the iteration goes on as with a complete payload. In the
required state, a HANDSHAKE_REQUEST with fewer than 6 bytes is answered with the bytes
present as major and minor (0 for a missing one) and the state advances; a TUNNEL_CREATE
of any length is answered and the state advances; a TUNNEL_AUTH or CHANNEL_CREATE whose
declared name size exceeds the bytes that follow has its name decoded from that many
zero bytes, and is answered, with the state advanced and no error, when the hook allows
that name or address and (for CHANNEL_CREATE) the dial succeeds. -/
theorem truncated_payload_processed (env : Env) (s : Server) (sz : Nat) :
    (∀ pkt : Bytes, pkt.length < 6 → s.State = SERVER_STATE_INITIAL →
      (iteration env s ⟨PKT_TYPE_HANDSHAKE_REQUEST, sz, pkt, none⟩).ret = none
      ∧ frames (iteration env s ⟨PKT_TYPE_HANDSHAKE_REQUEST, sz, pkt, none⟩).events
          = [handshakeResponse env s (pkt.getD 0 0) (pkt.getD 1 0)]
      ∧ (iteration env s ⟨PKT_TYPE_HANDSHAKE_REQUEST, sz, pkt, none⟩).server.State
          = SERVER_STATE_HANDSHAKE)
    ∧ (∀ pkt : Bytes, s.State = SERVER_STATE_HANDSHAKE →
      (iteration env s ⟨PKT_TYPE_TUNNEL_CREATE, sz, pkt, none⟩).ret = none
      ∧ frames (iteration env s ⟨PKT_TYPE_TUNNEL_CREATE, sz, pkt, none⟩).events
          = [tunnelResponse env]
      ∧ (iteration env s ⟨PKT_TYPE_TUNNEL_CREATE, sz, pkt, none⟩).server.State
          = SERVER_STATE_TUNNEL_CREATE)
    ∧ (∀ (lo hi : Nat) (tail : Bytes), tail.length < lo + 256 * hi →
      s.State = SERVER_STATE_TUNNEL_CREATE →
      tunnelAuthRequest env (lo :: hi :: tail)
          = (env.DecodeUTF16 (List.replicate (lo + 256 * hi) 0)).1
      ∧ (hookAllows s.VerifyTunnelAuthFunc
            (env.DecodeUTF16 (List.replicate (lo + 256 * hi) 0)).1 = true →
          (iteration env s ⟨PKT_TYPE_TUNNEL_AUTH, sz, lo :: hi :: tail, none⟩).ret = none
          ∧ frames (iteration env s ⟨PKT_TYPE_TUNNEL_AUTH, sz, lo :: hi :: tail, none⟩).events
              = [(tunnelAuthResponse env s).1]
          ∧ (iteration env s ⟨PKT_TYPE_TUNNEL_AUTH, sz, lo :: hi :: tail, none⟩).server.State
              = SERVER_STATE_TUNNEL_AUTHORIZE))
    ∧ (∀ (rc alt p0 p1 q0 q1 n0 n1 : Nat) (tail : Bytes) (conn : Conn),
      tail.length < n0 + 256 * n1 → s.State = SERVER_STATE_TUNNEL_AUTHORIZE →
      channelRequest env ([rc, alt, p0, p1, q0, q1, n0, n1] ++ tail)
          = ((env.DecodeUTF16 (List.replicate (n0 + 256 * n1) 0)).1, p0 + 256 * p1)
      ∧ (hookAllows s.VerifyServerFunc
            (targetHost env ([rc, alt, p0, p1, q0, q1, n0, n1] ++ tail)) = true →
          env.DialTimeout (targetHost env ([rc, alt, p0, p1, q0, q1, n0, n1] ++ tail))
            = Except.ok conn →
          (iteration env s ⟨PKT_TYPE_CHANNEL_CREATE, sz,
              [rc, alt, p0, p1, q0, q1, n0, n1] ++ tail, none⟩).ret = none
          ∧ frames (iteration env s ⟨PKT_TYPE_CHANNEL_CREATE, sz,
              [rc, alt, p0, p1, q0, q1, n0, n1] ++ tail, none⟩).events = [channelResponse env]
          ∧ (iteration env s ⟨PKT_TYPE_CHANNEL_CREATE, sz,
              [rc, alt, p0, p1, q0, q1, n0, n1] ++ tail, none⟩).server.State
              = SERVER_STATE_CHANNEL_CREATE)) := by
  refine ⟨?_, ?_, ?_, ?_⟩
  · intro pkt _ hs
    rw [iteration_handshakeRequest env s sz pkt hs]
    refine ⟨rfl, ?_, rfl⟩
    have hm : (handshakeRequest pkt).1 = pkt.getD 0 0
        ∧ (handshakeRequest pkt).2.1 = pkt.getD 1 0 := by
      cases pkt with
      | nil => simp [handshakeRequest, readUint]
      | cons a t =>
        cases t with
        | nil => simp [handshakeRequest, readUint, leValue]
        | cons b t => simp [handshakeRequest, readUint, leValue]
    rw [hm.1, hm.2]
    rfl
  · intro pkt hs
    rw [iteration_tunnelCreate env s sz pkt hs]
    refine ⟨rfl, ?_, rfl⟩
    cases s.VerifyTunnelCreate <;> rfl
  · intro lo hi tail ht hs
    have e := tunnelAuthRequest_truncated env lo hi tail ht
    refine ⟨e, ?_⟩
    intro ha
    rw [iteration_tunnelAuth env s sz _ hs, e, if_pos ha]
    refine ⟨rfl, ?_, rfl⟩
    cases s.VerifyTunnelAuthFunc <;> rfl
  · intro rc alt p0 p1 q0 q1 n0 n1 tail conn ht hs
    refine ⟨channelRequest_truncated env rc alt p0 p1 q0 q1 n0 n1 tail ht, ?_⟩
    intro ha hd
    rw [iteration_channelCreate env s sz _ hs, if_pos ha, hd]
    refine ⟨rfl, ?_, rfl⟩
    cases s.VerifyServerFunc <;> rfl

/-- C19, amended, at an input: an empty HANDSHAKE_REQUEST in state INITIAL, and a
TUNNEL_AUTH that declares 18 name bytes and holds 2, on a server without hooks. -/
theorem truncated_payload_processed_witness :
    (iteration sampleEnv (serverIn SERVER_STATE_INITIAL)
        ⟨PKT_TYPE_HANDSHAKE_REQUEST, 8, [], none⟩).ret = none
      ∧ (iteration sampleEnv (serverIn SERVER_STATE_INITIAL)
        ⟨PKT_TYPE_HANDSHAKE_REQUEST, 8, [], none⟩).server.State = SERVER_STATE_HANDSHAKE
      ∧ (iteration sampleEnv (serverIn SERVER_STATE_TUNNEL_CREATE)
        ⟨PKT_TYPE_TUNNEL_AUTH, 12, 18 :: 0 :: [99, 0], none⟩).ret = none
      ∧ (iteration sampleEnv (serverIn SERVER_STATE_TUNNEL_CREATE)
        ⟨PKT_TYPE_TUNNEL_AUTH, 12, 18 :: 0 :: [99, 0], none⟩).server.State
          = SERVER_STATE_TUNNEL_AUTHORIZE := by
  have h1 := (truncated_payload_processed sampleEnv (serverIn SERVER_STATE_INITIAL) 8).1 []
    (by decide) rfl
  have h3 := ((truncated_payload_processed sampleEnv (serverIn SERVER_STATE_TUNNEL_CREATE)
    12).2.2.1 18 0 [99, 0] (by decide) rfl).2 rfl
  exact ⟨h1.1, h1.2.2, h3.1, h3.2.2⟩

/-! ## Each response at most once, in order -/

/-- A hook call is no frame, no dial and no start of the forwarder. -/
theorem hookCall_projections (hook : Option VerifyFunc) (arg : String) :
    (frames (hookCall hook (Event.verifyTunnelCreate arg)) = []
      ∧ dials (hookCall hook (Event.verifyTunnelCreate arg)) = []
      ∧ forwards (hookCall hook (Event.verifyTunnelCreate arg)) = [])
    ∧ (frames (hookCall hook (Event.verifyTunnelAuth arg)) = []
      ∧ dials (hookCall hook (Event.verifyTunnelAuth arg)) = []
      ∧ forwards (hookCall hook (Event.verifyTunnelAuth arg)) = [])
    ∧ (frames (hookCall hook (Event.verifyServer arg)) = []
      ∧ dials (hookCall hook (Event.verifyServer arg)) = []
      ∧ forwards (hookCall hook (Event.verifyServer arg)) = []) := by
  cases hook <;> simp [hookCall, frames, dials, forwards]

/-- The invariant of a session gives the property of its trace. -/
theorem sessionOk_of_inv (env : Env) (s : Server) (tr : List Event)
    (h : sessionInv env s tr) : sessionOk env tr := by
  obtain ⟨k, p1, p3, hfr, hk⟩ := h
  refine ⟨⟨p1, p3, hfr ▸ List.take_prefix _ _⟩, ?_, ?_⟩
  · rcases hk with ⟨_, _, hd, _⟩ | ⟨_, _, hd, _⟩
    · simp [hd]
    · omega
  · rcases hk with ⟨_, _, _, hf⟩ | ⟨_, _, _, hf⟩
    · simp [hf]
    · omega

/-- Events without frame, dial and forwarder keep the invariant, when the state stays
as it is or moves within the states from CHANNEL_CREATE on. -/
theorem sessionInv_quiet (env : Env) (s t : Server) (tr ev : List Event)
    (hst : t.State = s.State ∨ (SERVER_STATE_CHANNEL_CREATE ≤ s.State
      ∧ SERVER_STATE_CHANNEL_CREATE ≤ t.State))
    (h1 : frames ev = []) (h2 : dials ev = []) (h3 : forwards ev = [])
    (h : sessionInv env s tr) : sessionInv env t (tr ++ ev) := by
  obtain ⟨k, p1, p3, hfr, hk⟩ := h
  refine ⟨k, p1, p3, by rw [frames_append, h1, hfr]; simp, ?_⟩
  rw [dials_append, forwards_append, h2, h3]
  simp only [List.append_nil]
  rcases hk with ⟨a, b, c, d⟩ | ⟨a, b, c, d⟩
  · rcases hst with hst | ⟨hs4, _⟩
    · exact Or.inl ⟨a, hst ▸ b, c, d⟩
    · simp only [SERVER_STATE_CHANNEL_CREATE] at hs4
      omega
  · rcases hst with hst | ⟨_, ht4⟩
    · exact Or.inr ⟨a, hst ▸ b, c, d⟩
    · exact Or.inr ⟨a, ht4, c, d⟩

/-- In a state before CHANNEL_CREATE the invariant tells how many responses were
written. -/
theorem sessionInv_state (env : Env) (s : Server) (tr : List Event) (n : Nat)
    (hn : n < 4) (hs : s.State = (n : Int)) (h : sessionInv env s tr) :
    ∃ p1 p3, frames tr = (handshakeFrames env p1 p3).take n ∧ dials tr = []
      ∧ forwards tr = [] := by
  obtain ⟨k, p1, p3, hfr, hk⟩ := h
  rcases hk with ⟨_, b, c, d⟩ | ⟨_, b, _, _⟩
  · have : k = n := by omega
    subst this
    exact ⟨p1, p3, hfr, c, d⟩
  · simp only [SERVER_STATE_CHANNEL_CREATE] at b
    omega

/-- One iteration keeps the property of the trace, and keeps the invariant when the loop
goes on. -/
theorem iteration_sessionInv (env : Env) (s : Server) (m : ReadResult) (tr : List Event)
    (hInv : sessionInv env s tr) :
    sessionOk env (tr ++ (iteration env s m).events)
      ∧ ((iteration env s m).ret = none →
          sessionInv env (iteration env s m).server (tr ++ (iteration env s m).events)) := by
  apply iteration_elim env s m
    (fun o => sessionOk env (tr ++ o.events)
      ∧ (o.ret = none → sessionInv env o.server (tr ++ o.events)))
  · intro err
    have q := sessionInv_quiet env s s tr [Event.readMessage] (Or.inl rfl) rfl rfl rfl hInv
    exact ⟨sessionOk_of_inv env s _ q, fun _ => q⟩
  · have q := sessionInv_quiet env s s tr [Event.readMessage] (Or.inl rfl) rfl rfl rfl hInv
    exact ⟨sessionOk_of_inv env s _ q, fun _ => q⟩
  · intro hs
    obtain ⟨p1, p3, hfr, hd, hf⟩ := sessionInv_state env s tr 0 (by decide) hs hInv
    have q : sessionInv env { s with State := SERVER_STATE_HANDSHAKE }
        (tr ++ [Event.readMessage, Event.writePacket
          (handshakeResponse env s (handshakeRequest m.pkt).1 (handshakeRequest m.pkt).2.1)]) := by
      obtain ⟨q1, hq1⟩ : ∃ p, handshakeResponse env s (handshakeRequest m.pkt).1
          (handshakeRequest m.pkt).2.1 = env.createPacket PKT_TYPE_HANDSHAKE_RESPONSE p :=
        ⟨_, rfl⟩
      refine ⟨1, q1, p3, ?_, Or.inl ⟨by decide, rfl, ?_, ?_⟩⟩
      · rw [frames_append, hfr, hq1]
        simp [frames, handshakeFrames]
      · rw [dials_append, hd]; rfl
      · rw [forwards_append, hf]; rfl
    exact ⟨sessionOk_of_inv env _ _ q, fun _ => q⟩
  · intro hs
    obtain ⟨p1, p3, hfr, hd, hf⟩ := sessionInv_state env s tr 1 (by decide) hs hInv
    have hp := (hookCall_projections s.VerifyTunnelCreate (tunnelRequest env m.pkt).2).1
    have q : sessionInv env { s with State := SERVER_STATE_TUNNEL_CREATE }
        (tr ++ ([Event.readMessage]
          ++ hookCall s.VerifyTunnelCreate (Event.verifyTunnelCreate (tunnelRequest env m.pkt).2)
          ++ [Event.writePacket (tunnelResponse env)])) := by
      refine ⟨2, p1, p3, ?_, Or.inl ⟨by decide, rfl, ?_, ?_⟩⟩
      · rw [frames_append, frames_append, frames_append, hfr, hp.1]
        simp [frames, handshakeFrames]
      · rw [dials_append, dials_append, dials_append, hd, hp.2.1]; rfl
      · rw [forwards_append, forwards_append, forwards_append, hf, hp.2.2]; rfl
    exact ⟨sessionOk_of_inv env _ _ q, fun _ => q⟩
  · intro hs
    obtain ⟨p1, p3, hfr, hd, hf⟩ := sessionInv_state env s tr 2 (by decide) hs hInv
    have hp := (hookCall_projections s.VerifyTunnelAuthFunc
      (tunnelAuthRequest env m.pkt)).2.1
    have q : sessionInv env
        { (tunnelAuthResponse env s).2 with State := SERVER_STATE_TUNNEL_AUTHORIZE }
        (tr ++ ([Event.readMessage]
          ++ hookCall s.VerifyTunnelAuthFunc
              (Event.verifyTunnelAuth (tunnelAuthRequest env m.pkt))
          ++ [Event.writePacket (tunnelAuthResponse env s).1])) := by
      obtain ⟨q3, hq3⟩ : ∃ p, (tunnelAuthResponse env s).1
          = env.createPacket PKT_TYPE_TUNNEL_AUTH_RESPONSE p :=
        ⟨_, tunnelAuthResponse_frame env s⟩
      refine ⟨3, p1, q3, ?_, Or.inl ⟨by decide, rfl, ?_, ?_⟩⟩
      · rw [frames_append, frames_append, frames_append, hfr, hp.1, hq3]
        simp [frames, handshakeFrames]
      · rw [dials_append, dials_append, dials_append, hd, hp.2.1]; rfl
      · rw [forwards_append, forwards_append, forwards_append, hf, hp.2.2]; rfl
    exact ⟨sessionOk_of_inv env _ _ q, fun _ => q⟩
  · intro _
    have q := sessionInv_quiet env s s tr
      [Event.readMessage, Event.verifyTunnelAuth (tunnelAuthRequest env m.pkt)]
      (Or.inl rfl) rfl rfl rfl hInv
    exact ⟨sessionOk_of_inv env s _ q, fun _ => q⟩
  · intro _
    have q := sessionInv_quiet env s s tr
      [Event.readMessage, Event.verifyServer (targetHost env m.pkt)]
      (Or.inl rfl) rfl rfl rfl hInv
    exact ⟨sessionOk_of_inv env s _ q, fun _ => q⟩
  · intro hs err _
    obtain ⟨p1, p3, hfr, hd, hf⟩ := sessionInv_state env s tr 3 (by decide) hs hInv
    have hp := (hookCall_projections s.VerifyServerFunc (targetHost env m.pkt)).2.2
    refine ⟨⟨⟨p1, p3, ?_⟩, ?_, ?_⟩, fun h => by simp at h⟩
    · rw [frames_append, frames_append, frames_append, hfr, hp.1]
      simp [frames]
      exact List.take_prefix _ _
    · rw [dials_append, dials_append, dials_append, hd, hp.2.1]; simp [dials]
    · rw [forwards_append, forwards_append, forwards_append, hf, hp.2.2]; simp [forwards]
  · intro hs conn _
    obtain ⟨p1, p3, hfr, hd, hf⟩ := sessionInv_state env s tr 3 (by decide) hs hInv
    have hp := (hookCall_projections s.VerifyServerFunc (targetHost env m.pkt)).2.2
    have q : sessionInv env
        { s with Remote := some conn, State := SERVER_STATE_CHANNEL_CREATE }
        (tr ++ ([Event.readMessage]
          ++ hookCall s.VerifyServerFunc (Event.verifyServer (targetHost env m.pkt))
          ++ [Event.dial (targetHost env m.pkt), Event.writePacket (channelResponse env),
              Event.forward (some conn)])) := by
      refine ⟨4, p1, p3, ?_, Or.inr ⟨rfl, le_refl _, ?_, ?_⟩⟩
      · rw [frames_append, frames_append, frames_append, hfr, hp.1]
        simp [frames, handshakeFrames]
      · rw [dials_append, dials_append, dials_append, hd, hp.2.1]; simp [dials]
      · rw [forwards_append, forwards_append, forwards_append, hf, hp.2.2]; simp [forwards]
    exact ⟨sessionOk_of_inv env _ _ q, fun _ => q⟩
  · intro hs
    have q := sessionInv_quiet env s { s with State := SERVER_STATE_OPENED } tr
      [Event.readMessage, Event.receive m.pkt s.Remote]
      (Or.inr ⟨hs, (show SERVER_STATE_CHANNEL_CREATE ≤ SERVER_STATE_OPENED by decide)⟩)
      rfl rfl rfl hInv
    exact ⟨sessionOk_of_inv env _ _ q, fun _ => q⟩
  · intro hs
    have q := sessionInv_quiet env s { s with State := SERVER_STATE_CLOSED } tr
      [Event.readMessage, Event.closeIn, Event.closeOut]
      (Or.inr ⟨by rw [hs]; decide,
        (show SERVER_STATE_CHANNEL_CREATE ≤ SERVER_STATE_CLOSED by decide)⟩)
      rfl rfl rfl hInv
    exact ⟨sessionOk_of_inv env _ _ q, fun _ => q⟩


/-- A run of the loop from a state that satisfies the invariant. -/
theorem Process_sessionOk (env : Env) (ms : List ReadResult) :
    ∀ (s : Server) (tr : List Event), sessionInv env s tr →
      sessionOk env (tr ++ (Process env s ms).events) := by
  induction ms with
  | nil =>
    intro s tr hInv
    simpa [Process] using sessionOk_of_inv env s tr hInv
  | cons m ms ih =>
    intro s tr hInv
    obtain ⟨h1, h2⟩ := iteration_sessionInv env s m tr hInv
    cases hr : (iteration env s m).ret with
    | some err =>
      simp only [Process, hr]
      exact h1
    | none =>
      simp only [Process, hr]
      rw [← List.append_assoc]
      exact ih _ _ (h2 hr)

/-- C20: for every script of `readMessage` results, every configuration (hooks included)
and every dialer, the frames `Process` writes when started on a server made by
`NewServer` are a prefix of: a frame built by `createPacket` with type HANDSHAKE_RESPONSE,
the frame of `tunnelResponse`, a frame built with type TUNNEL_AUTH_RESPONSE, the frame of
`channelResponse`; the backend is dialed at most once (so at most once with success) and
the forwarder is started at most once. -/
theorem responses_in_order (env : Env) (c : RedirConsts) (conf : ServerConf)
    (script : List ReadResult) :
    (∃ p1 p3 : Bytes, frames (Process env (NewServer c conf) script).events
        <+: [env.createPacket PKT_TYPE_HANDSHAKE_RESPONSE p1, tunnelResponse env,
             env.createPacket PKT_TYPE_TUNNEL_AUTH_RESPONSE p3, channelResponse env])
      ∧ (dials (Process env (NewServer c conf) script).events).length ≤ 1
      ∧ (forwards (Process env (NewServer c conf) script).events).length ≤ 1 := by
  have h := Process_sessionOk env script (NewServer c conf) []
    ⟨0, [], [], rfl, Or.inl ⟨by decide, rfl, rfl, rfl⟩⟩
  simpa [sessionOk, handshakeFrames] using h

end Rdpgw
